import Mathlib

/-!
Verification of the admission-control layer of the audience-feedback service.

The definitions below are a shallow embedding of `src/lib/rate-limit.ts`
(limits, `rateLimitMiddleware`, `checkResponseRateLimit`), of the spam /
duplicate content filter, and of the middleware wiring.  JavaScript numbers
holding counters and millisecond timestamps are modelled as `Nat`
(all quantities involved are non-negative integers well below 2^53, where
float arithmetic is exact); JavaScript truthiness fallbacks (`x || d`)
are modelled explicitly; the `try`/`catch` blocks are modelled with
`Except`.
-/

/-- Per-tier maxima, mirroring the `{ PER_MINUTE, PER_HOUR, PER_DAY }`
object shape used by the configuration constants. -/
structure TierLimits where
  PER_MINUTE : Nat
  PER_HOUR : Nat
  PER_DAY : Nat
deriving DecidableEq, Repr

/-- The `QUESTION_LIMITS` constant of `rate-limit.ts` (reduced limits). -/
def QUESTION_LIMITS : TierLimits :=
  { PER_MINUTE := 3, PER_HOUR := 5, PER_DAY := 10 }

/-- Shape of the `RESPONSE_LIMITS` constant. -/
structure ResponseLimits where
  PER_IP : TierLimits
  PER_QUESTION : TierLimits
deriving DecidableEq, Repr

/-- The `RESPONSE_LIMITS` constant of `rate-limit.ts`. -/
def RESPONSE_LIMITS : ResponseLimits :=
  { PER_IP := { PER_MINUTE := 5, PER_HOUR := 20, PER_DAY := 50 }
    PER_QUESTION := { PER_MINUTE := 100, PER_HOUR := 300, PER_DAY := 1000 } }

/-- The constant `RATE_LIMIT_WINDOW = 60 * 1000` (one-minute window, in ms). -/
def RATE_LIMIT_WINDOW : Nat := 60 * 1000

/-- The `RateLimitInfo` interface of `rate-limit.ts`: the per-key counter
state stored in the Counter Store (the spec calls it `RateWindowState`). -/
structure RateLimitInfo where
  dailyCount : Nat
  hourlyCount : Nat
  windowCount : Nat
  lastReset : Nat
deriving DecidableEq, Repr

/-- Stored representation of a `RateLimitInfo`: a structured record of
numeric fields, as a field-name/value list in `JSON.stringify` field order.
Modelled from the spec: the Counter Store client (the `@upstash/redis`
adapter, not part of the sources) serializes values; the spec fixes only
that values are a structured record of four numeric fields and that the
round-trip is exact, the concrete wire format being an implementation
detail. -/
def StoredValue : Type := List (String × Nat)

instance : DecidableEq StoredValue := by
  unfold StoredValue
  infer_instance

/-- Serialization of the counter state (field order is the insertion order
of the object literal in the source, which is what `JSON.stringify`
emits). -/
def RateLimitInfo.encode (s : RateLimitInfo) : StoredValue :=
  [("dailyCount", s.dailyCount), ("hourlyCount", s.hourlyCount),
   ("windowCount", s.windowCount), ("lastReset", s.lastReset)]

/-- Deserialization of a stored value back into a counter state; any other
shape is malformed. -/
def RateLimitInfo.decode : StoredValue → Option RateLimitInfo
  | [("dailyCount", d), ("hourlyCount", h), ("windowCount", w), ("lastReset", r)] =>
      some { dailyCount := d, hourlyCount := h, windowCount := w, lastReset := r }
  | _ => none

/-- The Counter Store (Redis) as seen by the rate limiter: a key-value map
whose entries carry the stored record and the expiry (in seconds) given to
the last `set`, plus a failure flag.  Modelled from the spec: the store is
an external collaborator; when `failing` is set every operation errors
(the "adapter is made to always error" scenario of the spec's fail-open
property). -/
structure CounterStore where
  data : String → Option (StoredValue × Nat)
  failing : Bool

/-- A store with no entries, not failing. -/
def CounterStore.empty : CounterStore :=
  { data := fun _ => none, failing := false }

/-- Embeds `redis.get(key)`: errors when the store is failing. -/
def CounterStore.get (s : CounterStore) (k : String) :
    Except Unit (Option StoredValue) :=
  if s.failing then .error () else .ok ((s.data k).map Prod.fst)

/-- The successful effect of `redis.set(key, value, { ex })`: the entry
for `key` now holds the serialized value with the given expiry. -/
def CounterStore.setData (s : CounterStore) (k : String) (v : RateLimitInfo)
    (ex : Nat) : CounterStore :=
  { s with data := fun k2 => if k2 = k then some (v.encode, ex) else s.data k2 }

/-- Embeds `redis.set(key, value, ex)`: errors when the store is failing. -/
def CounterStore.set (s : CounterStore) (k : String) (v : RateLimitInfo)
    (ex : Nat) : Except Unit CounterStore :=
  if s.failing then .error () else .ok (s.setData k v ex)

/-- JavaScript `x || d` on an optional number: `undefined` and `0` are
falsy, so both fall back to the default. -/
def jsOrNat : Option Nat → Nat → Nat
  | some v, d => if v = 0 then d else v
  | none, d => d

/-- JavaScript `x || d` on an optional string: `undefined` and `""` are
falsy. -/
def jsOrStr : Option String → String → String
  | some v, d => if v = "" then d else v
  | none, d => d

/-- The optional `config` parameter of `rateLimitMiddleware`. -/
structure MWConfig where
  windowMs : Option Nat := none
  max : Option Nat := none
  message : Option String := none
deriving DecidableEq, Repr

/-- Effective window length: `config?.windowMs || RATE_LIMIT_WINDOW`. -/
def mwWindowMs (config : MWConfig) : Nat :=
  jsOrNat config.windowMs RATE_LIMIT_WINDOW

/-- Effective maximum: `config?.max || QUESTION_LIMITS.PER_MINUTE`. -/
def mwMax (config : MWConfig) : Nat :=
  jsOrNat config.max QUESTION_LIMITS.PER_MINUTE

/-- Effective rejection message. -/
def mwMessage (config : MWConfig) : String :=
  jsOrStr config.message "Rate limit exceeded for question creation"

/-- Client identity resolution from the `x-forwarded-for` header
(lines 95-96): a missing or empty header is falsy, hence `anonymous`;
otherwise everything before the first comma. -/
def extractClientIp (forwardedFor : Option String) : String :=
  match forwardedFor with
  | some s => if s = "" then "anonymous" else (s.splitOn ",").headD ""
  | none => "anonymous"

/-- The single key used by `rateLimitMiddleware`:
`rate_limit:questions:<clientIp>` (line 98). -/
def mwKey (clientIp : String) : String :=
  "rate_limit:questions:" ++ clientIp

/-- Identity-scoped key of the response limiter (line 162). -/
def ipLimitKey (clientIp : String) : String :=
  "rate_limit:responses:ip:" ++ clientIp

/-- Resource-scoped key of the response limiter (line 173). -/
def questionLimitKey (questionId : String) : String :=
  "rate_limit:responses:question:" ++ questionId

/-- Hour/day rollover (lines 115-123 and the identical blocks of
`checkResponseRateLimit`): `hoursPassed = (now - lastReset) / 3600000`
compared against 24 and 1; for the non-negative quantities involved the
float comparisons are exactly the integer threshold comparisons below
(and a clock running backwards makes `now - lastReset` negative in JS and
`0` here, failing both thresholds either way). -/
def resetHourDay (now : Nat) (info : RateLimitInfo) : RateLimitInfo :=
  if 24 * (1000 * 60 * 60) ≤ now - info.lastReset then
    { info with dailyCount := 0, hourlyCount := 0, windowCount := 0 }
  else if 1000 * 60 * 60 ≤ now - info.lastReset then
    { info with hourlyCount := 0 }
  else info

/-- Short-window rollover (lines 125-128 and the identical blocks of
`checkResponseRateLimit`): `now - lastReset > windowMs` zeroes
`windowCount` and moves `lastReset` to `now`. -/
def resetWindow (windowMs now : Nat) (info : RateLimitInfo) : RateLimitInfo :=
  if windowMs < now - info.lastReset then
    { info with windowCount := 0, lastReset := now }
  else info

/-- The fresh state used when the store has no entry for the key:
`info || { 0, 0, 0, lastReset: now }`.  A stored value of unexpected shape
is treated as absent, as the spec's MalformedState rule prescribes. -/
def currentOrFresh (raw : Option StoredValue) (now : Nat) : RateLimitInfo :=
  (raw.bind RateLimitInfo.decode).getD
    { dailyCount := 0, hourlyCount := 0, windowCount := 0, lastReset := now }

/-- Outcome of `rateLimitMiddleware`: either the pass-through
`NextResponse.next()` or the 429 response with its message and the
`X-RateLimit-Limit` / `X-RateLimit-Reset` header data. -/
inductive MWOutcome where
  | next
  | tooManyRequests (message : String) (limit : Nat) (resetAt : Nat)
deriving DecidableEq, Repr

/-- Body of the `try` block of `rateLimitMiddleware` (lines 105-146). -/
def rateLimitMiddlewareTry (store : CounterStore) (clientIp : String)
    (now : Nat) (config : MWConfig) : Except Unit (MWOutcome × CounterStore) :=
  let key := mwKey clientIp
  let windowMs := mwWindowMs config
  let maxReq := mwMax config
  let message := mwMessage config
  match store.get key with
  | .error e => .error e
  | .ok raw =>
    let currentInfo := currentOrFresh raw now
    let currentInfo := resetHourDay now currentInfo
    let currentInfo := resetWindow windowMs now currentInfo
    if currentInfo.windowCount ≥ maxReq then
      .ok (MWOutcome.tooManyRequests message maxReq (currentInfo.lastReset + windowMs), store)
    else
      let currentInfo := { currentInfo with windowCount := currentInfo.windowCount + 1 }
      match store.set key currentInfo (24 * 60 * 60) with
      | .error e => .error e
      | .ok store2 => .ok (MWOutcome.next, store2)

/-- Embeds `rateLimitMiddleware` (lines 87-151): the `catch` turns any store
error into the pass-through response, leaving the store as it was. -/
def rateLimitMiddleware (store : CounterStore) (clientIp : String)
    (now : Nat) (config : MWConfig) : MWOutcome × CounterStore :=
  match rateLimitMiddlewareTry store clientIp now config with
  | .ok r => r
  | .error _ => (MWOutcome.next, store)

/-- Result shape of `checkResponseRateLimit`. -/
structure ResponseCheckResult where
  allowed : Bool
  error : Option String := none
deriving DecidableEq, Repr

/-- Body of the `try` block of `checkResponseRateLimit` (lines 160-250). -/
def checkResponseRateLimitTry (store : CounterStore)
    (questionId clientIp : String) (now : Nat) :
    Except Unit (ResponseCheckResult × CounterStore) :=
  let ipKey := ipLimitKey clientIp
  match store.get ipKey with
  | .error e => .error e
  | .ok ipRaw =>
  let currentIpInfo := currentOrFresh ipRaw now
  let questionKey := questionLimitKey questionId
  match store.get questionKey with
  | .error e => .error e
  | .ok qRaw =>
  let currentQuestionInfo := currentOrFresh qRaw now
  let currentIpInfo := resetWindow RATE_LIMIT_WINDOW now (resetHourDay now currentIpInfo)
  let currentQuestionInfo := resetWindow RATE_LIMIT_WINDOW now (resetHourDay now currentQuestionInfo)
  if currentIpInfo.dailyCount ≥ RESPONSE_LIMITS.PER_IP.PER_DAY then
    .ok ({ allowed := false, error := some "Daily response limit reached" }, store)
  else if currentIpInfo.hourlyCount ≥ RESPONSE_LIMITS.PER_IP.PER_HOUR then
    .ok ({ allowed := false, error := some "Hourly response limit reached" }, store)
  else if currentIpInfo.windowCount ≥ RESPONSE_LIMITS.PER_IP.PER_MINUTE then
    .ok ({ allowed := false, error := some "Too many responses, please wait a minute" }, store)
  else if currentQuestionInfo.dailyCount ≥ RESPONSE_LIMITS.PER_QUESTION.PER_DAY then
    .ok ({ allowed := false,
           error := some "This question has reached its daily response limit" }, store)
  else if currentQuestionInfo.hourlyCount ≥ RESPONSE_LIMITS.PER_QUESTION.PER_HOUR then
    .ok ({ allowed := false,
           error := some "This question has reached its hourly response limit" }, store)
  else if currentQuestionInfo.windowCount ≥ RESPONSE_LIMITS.PER_QUESTION.PER_MINUTE then
    .ok ({ allowed := false,
           error := some "Too many responses to this question, please wait a minute" }, store)
  else
    let newIpInfo :=
      { currentIpInfo with
          dailyCount := currentIpInfo.dailyCount + 1
          hourlyCount := currentIpInfo.hourlyCount + 1
          windowCount := currentIpInfo.windowCount + 1 }
    let newQuestionInfo :=
      { currentQuestionInfo with
          dailyCount := currentQuestionInfo.dailyCount + 1
          hourlyCount := currentQuestionInfo.hourlyCount + 1
          windowCount := currentQuestionInfo.windowCount + 1 }
    match store.set ipKey newIpInfo (24 * 60 * 60) with
    | .error e => .error e
    | .ok store2 =>
      match store2.set questionKey newQuestionInfo (24 * 60 * 60) with
      | .error e => .error e
      | .ok store3 => .ok ({ allowed := true }, store3)

/-- Embeds `checkResponseRateLimit` (lines 154-257): on any store error the
`catch` allows the request and leaves the store as it was. -/
def checkResponseRateLimit (store : CounterStore) (questionId clientIp : String)
    (now : Nat) : ResponseCheckResult × CounterStore :=
  match checkResponseRateLimitTry store questionId clientIp now with
  | .ok r => r
  | .error _ => ({ allowed := true }, store)

/-- Running a sequence of `rateLimitMiddleware` checks for one client at
the given times, threading the Counter Store. -/
def runMW (store : CounterStore) (clientIp : String) (config : MWConfig) :
    List Nat → List MWOutcome × CounterStore
  | [] => ([], store)
  | t :: ts =>
    let r := rateLimitMiddleware store clientIp t config
    let rest := runMW r.2 clientIp config ts
    (r.1 :: rest.1, rest.2)

/-- Running a sequence of `checkResponseRateLimit` checks for one
(question, client) pair at the given times. -/
def runResp (store : CounterStore) (questionId clientIp : String) :
    List Nat → List ResponseCheckResult × CounterStore
  | [] => ([], store)
  | t :: ts =>
    let r := checkResponseRateLimit store questionId clientIp t
    let rest := runResp r.2 questionId clientIp ts
    (r.1 :: rest.1, rest.2)

/-- ECMAScript line terminators as UTF-16 code units: the values the
regex dot (`.` without the `s` flag) does not match. -/
def isLineTerminatorUnit (u : Nat) : Bool :=
  u = 10 || u = 13 || u = 0x2028 || u = 0x2029

/-- A character that is a line terminator. -/
def isLineTerminator (c : Char) : Bool := isLineTerminatorUnit c.toNat

/-- The UTF-16 encoding of a character: one code unit for the Basic
Multilingual Plane, a surrogate pair for an astral character.  JavaScript
strings, and regexes without the `u` flag, operate on these units. -/
def utf16Units (c : Char) : List Nat :=
  if c.toNat < 65536 then [c.toNat]
  else [55296 + (c.toNat - 65536) / 1024, 56320 + (c.toNat - 65536) % 1024]

/-- UTF-16 code units of a character list. -/
def utf16 : List Char → List Nat
  | [] => []
  | c :: l => utf16Units c ++ utf16 l

/-- The test of the regex `(.)\1\x7b9,\x7d` (line 61) over the UTF-16
code units of the string: from some position, a unit matched by `.` (any
unit except a line terminator) followed by at least nine further copies of
itself.  An astral character's two surrogate units always differ, so such
characters can never satisfy the backreference run. -/
def hasRepeatedRun : List Nat → Bool
  | [] => false
  | u :: rest =>
    (!isLineTerminatorUnit u && decide (9 ≤ (rest.takeWhile (fun v => v = u)).length))
      || hasRepeatedRun rest

/-- The same scan expressed over characters: a run of at least ten copies
of a single non-line-terminator BMP character.  Proved to agree with
`hasRepeatedRun` on the UTF-16 encoding. -/
def charRepeatedRun : List Char → Bool
  | [] => false
  | c :: rest =>
    (!isLineTerminator c && decide (c.toNat < 65536) &&
      decide (9 ≤ (rest.takeWhile (fun d => d = c)).length))
      || charRepeatedRun rest

/-- The global match count of the regex `https?:\\/\\/` (line 67): scan
left to right, consuming each match (greedy `s?`, so `https://` is
preferred where both alternatives could start).  The scan carries an
explicit step budget — any budget at least the text length gives the same
result — so that it is structurally recursive and evaluates by kernel
reduction. -/
def countUrlGo : Nat → List Char → Nat
  | 0, _ => 0
  | _ + 1, [] => 0
  | fuel + 1, c :: rest =>
    if List.isPrefixOf "https://".toList (c :: rest) then
      1 + countUrlGo fuel (rest.drop 7)
    else if List.isPrefixOf "http://".toList (c :: rest) then
      1 + countUrlGo fuel (rest.drop 6)
    else countUrlGo fuel rest

/-- Total scan count `(content.match(/https?://g) || []).length` of line 67. -/
def countUrlMatches (l : List Char) : Nat := countUrlGo l.length l

/-- ECMAScript `\s`: whitespace plus line terminators. -/
def isJsWhitespace (c : Char) : Bool :=
  c = ' ' || c = Char.ofNat 9 || c = Char.ofNat 10 || c = Char.ofNat 11 ||
  c = Char.ofNat 12 || c = Char.ofNat 13 || c = Char.ofNat 0xa0 ||
  c = Char.ofNat 0x1680 || (decide (0x2000 ≤ c.toNat) && decide (c.toNat ≤ 0x200a)) ||
  c = Char.ofNat 0x2028 || c = Char.ofNat 0x2029 || c = Char.ofNat 0x202f ||
  c = Char.ofNat 0x205f || c = Char.ofNat 0x3000 || c = Char.ofNat 0xfeff

/-- Embeds `String.prototype.split(/\\s+/)` (line 73): the chunks between maximal
whitespace runs, with an empty chunk at an end of the string that touches
whitespace.  `inRun` records that the scanner is inside a whitespace run
whose boundary chunk has already been emitted. -/
def splitWsGo : List Char → List Char → Bool → List (List Char)
  | [], acc, _ => [acc.reverse]
  | c :: rest, acc, inRun =>
    if isJsWhitespace c then
      if inRun then splitWsGo rest acc true
      else acc.reverse :: splitWsGo rest [] true
    else splitWsGo rest (c :: acc) false

/-- Embeds `content.split(/\s+/)` on a character list. -/
def splitWs (l : List Char) : List (List Char) := splitWsGo l [] false

/-- Embeds `Math.max(...wordFreq.values())`: the largest number of occurrences of
any single word. -/
def maxWordRepetition (words : List (List Char)) : Nat :=
  (words.map (fun w => words.count w)).foldr max 0

set_option maxHeartbeats 1600000 in
/-- Unicode simple lowercase mappings outside ASCII (code point to code
point), per the Unicode Character Database (version 14.0); this is the
locale-insensitive data `String.prototype.toLowerCase` uses for every
character without a special full mapping.  Engines shipping a newer
Unicode version may add mappings for more recently encoded scripts. -/
def lowerTable : List (Nat × Nat) := [
  (192, 224), (193, 225), (194, 226), (195, 227), (196, 228), (197, 229), (198, 230), (199, 231),
  (200, 232), (201, 233), (202, 234), (203, 235), (204, 236), (205, 237), (206, 238), (207, 239),
  (208, 240), (209, 241), (210, 242), (211, 243), (212, 244), (213, 245), (214, 246), (216, 248),
  (217, 249), (218, 250), (219, 251), (220, 252), (221, 253), (222, 254), (256, 257), (258, 259),
  (260, 261), (262, 263), (264, 265), (266, 267), (268, 269), (270, 271), (272, 273), (274, 275),
  (276, 277), (278, 279), (280, 281), (282, 283), (284, 285), (286, 287), (288, 289), (290, 291),
  (292, 293), (294, 295), (296, 297), (298, 299), (300, 301), (302, 303), (306, 307), (308, 309),
  (310, 311), (313, 314), (315, 316), (317, 318), (319, 320), (321, 322), (323, 324), (325, 326),
  (327, 328), (330, 331), (332, 333), (334, 335), (336, 337), (338, 339), (340, 341), (342, 343),
  (344, 345), (346, 347), (348, 349), (350, 351), (352, 353), (354, 355), (356, 357), (358, 359),
  (360, 361), (362, 363), (364, 365), (366, 367), (368, 369), (370, 371), (372, 373), (374, 375),
  (376, 255), (377, 378), (379, 380), (381, 382), (385, 595), (386, 387), (388, 389), (390, 596),
  (391, 392), (393, 598), (394, 599), (395, 396), (398, 477), (399, 601), (400, 603), (401, 402),
  (403, 608), (404, 611), (406, 617), (407, 616), (408, 409), (412, 623), (413, 626), (415, 629),
  (416, 417), (418, 419), (420, 421), (422, 640), (423, 424), (425, 643), (428, 429), (430, 648),
  (431, 432), (433, 650), (434, 651), (435, 436), (437, 438), (439, 658), (440, 441), (444, 445),
  (452, 454), (453, 454), (455, 457), (456, 457), (458, 460), (459, 460), (461, 462), (463, 464),
  (465, 466), (467, 468), (469, 470), (471, 472), (473, 474), (475, 476), (478, 479), (480, 481),
  (482, 483), (484, 485), (486, 487), (488, 489), (490, 491), (492, 493), (494, 495), (497, 499),
  (498, 499), (500, 501), (502, 405), (503, 447), (504, 505), (506, 507), (508, 509), (510, 511),
  (512, 513), (514, 515), (516, 517), (518, 519), (520, 521), (522, 523), (524, 525), (526, 527),
  (528, 529), (530, 531), (532, 533), (534, 535), (536, 537), (538, 539), (540, 541), (542, 543),
  (544, 414), (546, 547), (548, 549), (550, 551), (552, 553), (554, 555), (556, 557), (558, 559),
  (560, 561), (562, 563), (570, 11365), (571, 572), (573, 410), (574, 11366), (577, 578),
  (579, 384), (580, 649), (581, 652), (582, 583), (584, 585), (586, 587), (588, 589), (590, 591),
  (880, 881), (882, 883), (886, 887), (895, 1011), (902, 940), (904, 941), (905, 942),
  (906, 943), (908, 972), (910, 973), (911, 974), (913, 945), (914, 946), (915, 947), (916, 948),
  (917, 949), (918, 950), (919, 951), (920, 952), (921, 953), (922, 954), (923, 955), (924, 956),
  (925, 957), (926, 958), (927, 959), (928, 960), (929, 961), (931, 963), (932, 964), (933, 965),
  (934, 966), (935, 967), (936, 968), (937, 969), (938, 970), (939, 971), (975, 983), (984, 985),
  (986, 987), (988, 989), (990, 991), (992, 993), (994, 995), (996, 997), (998, 999),
  (1000, 1001), (1002, 1003), (1004, 1005), (1006, 1007), (1012, 952), (1015, 1016),
  (1017, 1010), (1018, 1019), (1021, 891), (1022, 892), (1023, 893), (1024, 1104), (1025, 1105),
  (1026, 1106), (1027, 1107), (1028, 1108), (1029, 1109), (1030, 1110), (1031, 1111),
  (1032, 1112), (1033, 1113), (1034, 1114), (1035, 1115), (1036, 1116), (1037, 1117),
  (1038, 1118), (1039, 1119), (1040, 1072), (1041, 1073), (1042, 1074), (1043, 1075),
  (1044, 1076), (1045, 1077), (1046, 1078), (1047, 1079), (1048, 1080), (1049, 1081),
  (1050, 1082), (1051, 1083), (1052, 1084), (1053, 1085), (1054, 1086), (1055, 1087),
  (1056, 1088), (1057, 1089), (1058, 1090), (1059, 1091), (1060, 1092), (1061, 1093),
  (1062, 1094), (1063, 1095), (1064, 1096), (1065, 1097), (1066, 1098), (1067, 1099),
  (1068, 1100), (1069, 1101), (1070, 1102), (1071, 1103), (1120, 1121), (1122, 1123),
  (1124, 1125), (1126, 1127), (1128, 1129), (1130, 1131), (1132, 1133), (1134, 1135),
  (1136, 1137), (1138, 1139), (1140, 1141), (1142, 1143), (1144, 1145), (1146, 1147),
  (1148, 1149), (1150, 1151), (1152, 1153), (1162, 1163), (1164, 1165), (1166, 1167),
  (1168, 1169), (1170, 1171), (1172, 1173), (1174, 1175), (1176, 1177), (1178, 1179),
  (1180, 1181), (1182, 1183), (1184, 1185), (1186, 1187), (1188, 1189), (1190, 1191),
  (1192, 1193), (1194, 1195), (1196, 1197), (1198, 1199), (1200, 1201), (1202, 1203),
  (1204, 1205), (1206, 1207), (1208, 1209), (1210, 1211), (1212, 1213), (1214, 1215),
  (1216, 1231), (1217, 1218), (1219, 1220), (1221, 1222), (1223, 1224), (1225, 1226),
  (1227, 1228), (1229, 1230), (1232, 1233), (1234, 1235), (1236, 1237), (1238, 1239),
  (1240, 1241), (1242, 1243), (1244, 1245), (1246, 1247), (1248, 1249), (1250, 1251),
  (1252, 1253), (1254, 1255), (1256, 1257), (1258, 1259), (1260, 1261), (1262, 1263),
  (1264, 1265), (1266, 1267), (1268, 1269), (1270, 1271), (1272, 1273), (1274, 1275),
  (1276, 1277), (1278, 1279), (1280, 1281), (1282, 1283), (1284, 1285), (1286, 1287),
  (1288, 1289), (1290, 1291), (1292, 1293), (1294, 1295), (1296, 1297), (1298, 1299),
  (1300, 1301), (1302, 1303), (1304, 1305), (1306, 1307), (1308, 1309), (1310, 1311),
  (1312, 1313), (1314, 1315), (1316, 1317), (1318, 1319), (1320, 1321), (1322, 1323),
  (1324, 1325), (1326, 1327), (1329, 1377), (1330, 1378), (1331, 1379), (1332, 1380),
  (1333, 1381), (1334, 1382), (1335, 1383), (1336, 1384), (1337, 1385), (1338, 1386),
  (1339, 1387), (1340, 1388), (1341, 1389), (1342, 1390), (1343, 1391), (1344, 1392),
  (1345, 1393), (1346, 1394), (1347, 1395), (1348, 1396), (1349, 1397), (1350, 1398),
  (1351, 1399), (1352, 1400), (1353, 1401), (1354, 1402), (1355, 1403), (1356, 1404),
  (1357, 1405), (1358, 1406), (1359, 1407), (1360, 1408), (1361, 1409), (1362, 1410),
  (1363, 1411), (1364, 1412), (1365, 1413), (1366, 1414), (4256, 11520), (4257, 11521),
  (4258, 11522), (4259, 11523), (4260, 11524), (4261, 11525), (4262, 11526), (4263, 11527),
  (4264, 11528), (4265, 11529), (4266, 11530), (4267, 11531), (4268, 11532), (4269, 11533),
  (4270, 11534), (4271, 11535), (4272, 11536), (4273, 11537), (4274, 11538), (4275, 11539),
  (4276, 11540), (4277, 11541), (4278, 11542), (4279, 11543), (4280, 11544), (4281, 11545),
  (4282, 11546), (4283, 11547), (4284, 11548), (4285, 11549), (4286, 11550), (4287, 11551),
  (4288, 11552), (4289, 11553), (4290, 11554), (4291, 11555), (4292, 11556), (4293, 11557),
  (4295, 11559), (4301, 11565), (5024, 43888), (5025, 43889), (5026, 43890), (5027, 43891),
  (5028, 43892), (5029, 43893), (5030, 43894), (5031, 43895), (5032, 43896), (5033, 43897),
  (5034, 43898), (5035, 43899), (5036, 43900), (5037, 43901), (5038, 43902), (5039, 43903),
  (5040, 43904), (5041, 43905), (5042, 43906), (5043, 43907), (5044, 43908), (5045, 43909),
  (5046, 43910), (5047, 43911), (5048, 43912), (5049, 43913), (5050, 43914), (5051, 43915),
  (5052, 43916), (5053, 43917), (5054, 43918), (5055, 43919), (5056, 43920), (5057, 43921),
  (5058, 43922), (5059, 43923), (5060, 43924), (5061, 43925), (5062, 43926), (5063, 43927),
  (5064, 43928), (5065, 43929), (5066, 43930), (5067, 43931), (5068, 43932), (5069, 43933),
  (5070, 43934), (5071, 43935), (5072, 43936), (5073, 43937), (5074, 43938), (5075, 43939),
  (5076, 43940), (5077, 43941), (5078, 43942), (5079, 43943), (5080, 43944), (5081, 43945),
  (5082, 43946), (5083, 43947), (5084, 43948), (5085, 43949), (5086, 43950), (5087, 43951),
  (5088, 43952), (5089, 43953), (5090, 43954), (5091, 43955), (5092, 43956), (5093, 43957),
  (5094, 43958), (5095, 43959), (5096, 43960), (5097, 43961), (5098, 43962), (5099, 43963),
  (5100, 43964), (5101, 43965), (5102, 43966), (5103, 43967), (5104, 5112), (5105, 5113),
  (5106, 5114), (5107, 5115), (5108, 5116), (5109, 5117), (7312, 4304), (7313, 4305),
  (7314, 4306), (7315, 4307), (7316, 4308), (7317, 4309), (7318, 4310), (7319, 4311),
  (7320, 4312), (7321, 4313), (7322, 4314), (7323, 4315), (7324, 4316), (7325, 4317),
  (7326, 4318), (7327, 4319), (7328, 4320), (7329, 4321), (7330, 4322), (7331, 4323),
  (7332, 4324), (7333, 4325), (7334, 4326), (7335, 4327), (7336, 4328), (7337, 4329),
  (7338, 4330), (7339, 4331), (7340, 4332), (7341, 4333), (7342, 4334), (7343, 4335),
  (7344, 4336), (7345, 4337), (7346, 4338), (7347, 4339), (7348, 4340), (7349, 4341),
  (7350, 4342), (7351, 4343), (7352, 4344), (7353, 4345), (7354, 4346), (7357, 4349),
  (7358, 4350), (7359, 4351), (7680, 7681), (7682, 7683), (7684, 7685), (7686, 7687),
  (7688, 7689), (7690, 7691), (7692, 7693), (7694, 7695), (7696, 7697), (7698, 7699),
  (7700, 7701), (7702, 7703), (7704, 7705), (7706, 7707), (7708, 7709), (7710, 7711),
  (7712, 7713), (7714, 7715), (7716, 7717), (7718, 7719), (7720, 7721), (7722, 7723),
  (7724, 7725), (7726, 7727), (7728, 7729), (7730, 7731), (7732, 7733), (7734, 7735),
  (7736, 7737), (7738, 7739), (7740, 7741), (7742, 7743), (7744, 7745), (7746, 7747),
  (7748, 7749), (7750, 7751), (7752, 7753), (7754, 7755), (7756, 7757), (7758, 7759),
  (7760, 7761), (7762, 7763), (7764, 7765), (7766, 7767), (7768, 7769), (7770, 7771),
  (7772, 7773), (7774, 7775), (7776, 7777), (7778, 7779), (7780, 7781), (7782, 7783),
  (7784, 7785), (7786, 7787), (7788, 7789), (7790, 7791), (7792, 7793), (7794, 7795),
  (7796, 7797), (7798, 7799), (7800, 7801), (7802, 7803), (7804, 7805), (7806, 7807),
  (7808, 7809), (7810, 7811), (7812, 7813), (7814, 7815), (7816, 7817), (7818, 7819),
  (7820, 7821), (7822, 7823), (7824, 7825), (7826, 7827), (7828, 7829), (7838, 223),
  (7840, 7841), (7842, 7843), (7844, 7845), (7846, 7847), (7848, 7849), (7850, 7851),
  (7852, 7853), (7854, 7855), (7856, 7857), (7858, 7859), (7860, 7861), (7862, 7863),
  (7864, 7865), (7866, 7867), (7868, 7869), (7870, 7871), (7872, 7873), (7874, 7875),
  (7876, 7877), (7878, 7879), (7880, 7881), (7882, 7883), (7884, 7885), (7886, 7887),
  (7888, 7889), (7890, 7891), (7892, 7893), (7894, 7895), (7896, 7897), (7898, 7899),
  (7900, 7901), (7902, 7903), (7904, 7905), (7906, 7907), (7908, 7909), (7910, 7911),
  (7912, 7913), (7914, 7915), (7916, 7917), (7918, 7919), (7920, 7921), (7922, 7923),
  (7924, 7925), (7926, 7927), (7928, 7929), (7930, 7931), (7932, 7933), (7934, 7935),
  (7944, 7936), (7945, 7937), (7946, 7938), (7947, 7939), (7948, 7940), (7949, 7941),
  (7950, 7942), (7951, 7943), (7960, 7952), (7961, 7953), (7962, 7954), (7963, 7955),
  (7964, 7956), (7965, 7957), (7976, 7968), (7977, 7969), (7978, 7970), (7979, 7971),
  (7980, 7972), (7981, 7973), (7982, 7974), (7983, 7975), (7992, 7984), (7993, 7985),
  (7994, 7986), (7995, 7987), (7996, 7988), (7997, 7989), (7998, 7990), (7999, 7991),
  (8008, 8000), (8009, 8001), (8010, 8002), (8011, 8003), (8012, 8004), (8013, 8005),
  (8025, 8017), (8027, 8019), (8029, 8021), (8031, 8023), (8040, 8032), (8041, 8033),
  (8042, 8034), (8043, 8035), (8044, 8036), (8045, 8037), (8046, 8038), (8047, 8039),
  (8072, 8064), (8073, 8065), (8074, 8066), (8075, 8067), (8076, 8068), (8077, 8069),
  (8078, 8070), (8079, 8071), (8088, 8080), (8089, 8081), (8090, 8082), (8091, 8083),
  (8092, 8084), (8093, 8085), (8094, 8086), (8095, 8087), (8104, 8096), (8105, 8097),
  (8106, 8098), (8107, 8099), (8108, 8100), (8109, 8101), (8110, 8102), (8111, 8103),
  (8120, 8112), (8121, 8113), (8122, 8048), (8123, 8049), (8124, 8115), (8136, 8050),
  (8137, 8051), (8138, 8052), (8139, 8053), (8140, 8131), (8152, 8144), (8153, 8145),
  (8154, 8054), (8155, 8055), (8168, 8160), (8169, 8161), (8170, 8058), (8171, 8059),
  (8172, 8165), (8184, 8056), (8185, 8057), (8186, 8060), (8187, 8061), (8188, 8179),
  (8486, 969), (8490, 107), (8491, 229), (8498, 8526), (8544, 8560), (8545, 8561), (8546, 8562),
  (8547, 8563), (8548, 8564), (8549, 8565), (8550, 8566), (8551, 8567), (8552, 8568),
  (8553, 8569), (8554, 8570), (8555, 8571), (8556, 8572), (8557, 8573), (8558, 8574),
  (8559, 8575), (8579, 8580), (9398, 9424), (9399, 9425), (9400, 9426), (9401, 9427),
  (9402, 9428), (9403, 9429), (9404, 9430), (9405, 9431), (9406, 9432), (9407, 9433),
  (9408, 9434), (9409, 9435), (9410, 9436), (9411, 9437), (9412, 9438), (9413, 9439),
  (9414, 9440), (9415, 9441), (9416, 9442), (9417, 9443), (9418, 9444), (9419, 9445),
  (9420, 9446), (9421, 9447), (9422, 9448), (9423, 9449), (11264, 11312), (11265, 11313),
  (11266, 11314), (11267, 11315), (11268, 11316), (11269, 11317), (11270, 11318), (11271, 11319),
  (11272, 11320), (11273, 11321), (11274, 11322), (11275, 11323), (11276, 11324), (11277, 11325),
  (11278, 11326), (11279, 11327), (11280, 11328), (11281, 11329), (11282, 11330), (11283, 11331),
  (11284, 11332), (11285, 11333), (11286, 11334), (11287, 11335), (11288, 11336), (11289, 11337),
  (11290, 11338), (11291, 11339), (11292, 11340), (11293, 11341), (11294, 11342), (11295, 11343),
  (11296, 11344), (11297, 11345), (11298, 11346), (11299, 11347), (11300, 11348), (11301, 11349),
  (11302, 11350), (11303, 11351), (11304, 11352), (11305, 11353), (11306, 11354), (11307, 11355),
  (11308, 11356), (11309, 11357), (11310, 11358), (11311, 11359), (11360, 11361), (11362, 619),
  (11363, 7549), (11364, 637), (11367, 11368), (11369, 11370), (11371, 11372), (11373, 593),
  (11374, 625), (11375, 592), (11376, 594), (11378, 11379), (11381, 11382), (11390, 575),
  (11391, 576), (11392, 11393), (11394, 11395), (11396, 11397), (11398, 11399), (11400, 11401),
  (11402, 11403), (11404, 11405), (11406, 11407), (11408, 11409), (11410, 11411), (11412, 11413),
  (11414, 11415), (11416, 11417), (11418, 11419), (11420, 11421), (11422, 11423), (11424, 11425),
  (11426, 11427), (11428, 11429), (11430, 11431), (11432, 11433), (11434, 11435), (11436, 11437),
  (11438, 11439), (11440, 11441), (11442, 11443), (11444, 11445), (11446, 11447), (11448, 11449),
  (11450, 11451), (11452, 11453), (11454, 11455), (11456, 11457), (11458, 11459), (11460, 11461),
  (11462, 11463), (11464, 11465), (11466, 11467), (11468, 11469), (11470, 11471), (11472, 11473),
  (11474, 11475), (11476, 11477), (11478, 11479), (11480, 11481), (11482, 11483), (11484, 11485),
  (11486, 11487), (11488, 11489), (11490, 11491), (11499, 11500), (11501, 11502), (11506, 11507),
  (42560, 42561), (42562, 42563), (42564, 42565), (42566, 42567), (42568, 42569), (42570, 42571),
  (42572, 42573), (42574, 42575), (42576, 42577), (42578, 42579), (42580, 42581), (42582, 42583),
  (42584, 42585), (42586, 42587), (42588, 42589), (42590, 42591), (42592, 42593), (42594, 42595),
  (42596, 42597), (42598, 42599), (42600, 42601), (42602, 42603), (42604, 42605), (42624, 42625),
  (42626, 42627), (42628, 42629), (42630, 42631), (42632, 42633), (42634, 42635), (42636, 42637),
  (42638, 42639), (42640, 42641), (42642, 42643), (42644, 42645), (42646, 42647), (42648, 42649),
  (42650, 42651), (42786, 42787), (42788, 42789), (42790, 42791), (42792, 42793), (42794, 42795),
  (42796, 42797), (42798, 42799), (42802, 42803), (42804, 42805), (42806, 42807), (42808, 42809),
  (42810, 42811), (42812, 42813), (42814, 42815), (42816, 42817), (42818, 42819), (42820, 42821),
  (42822, 42823), (42824, 42825), (42826, 42827), (42828, 42829), (42830, 42831), (42832, 42833),
  (42834, 42835), (42836, 42837), (42838, 42839), (42840, 42841), (42842, 42843), (42844, 42845),
  (42846, 42847), (42848, 42849), (42850, 42851), (42852, 42853), (42854, 42855), (42856, 42857),
  (42858, 42859), (42860, 42861), (42862, 42863), (42873, 42874), (42875, 42876), (42877, 7545),
  (42878, 42879), (42880, 42881), (42882, 42883), (42884, 42885), (42886, 42887), (42891, 42892),
  (42893, 613), (42896, 42897), (42898, 42899), (42902, 42903), (42904, 42905), (42906, 42907),
  (42908, 42909), (42910, 42911), (42912, 42913), (42914, 42915), (42916, 42917), (42918, 42919),
  (42920, 42921), (42922, 614), (42923, 604), (42924, 609), (42925, 620), (42926, 618),
  (42928, 670), (42929, 647), (42930, 669), (42931, 43859), (42932, 42933), (42934, 42935),
  (42936, 42937), (42938, 42939), (42940, 42941), (42942, 42943), (42944, 42945), (42946, 42947),
  (42948, 42900), (42949, 642), (42950, 7566), (42951, 42952), (42953, 42954), (42960, 42961),
  (42966, 42967), (42968, 42969), (42997, 42998), (65313, 65345), (65314, 65346), (65315, 65347),
  (65316, 65348), (65317, 65349), (65318, 65350), (65319, 65351), (65320, 65352), (65321, 65353),
  (65322, 65354), (65323, 65355), (65324, 65356), (65325, 65357), (65326, 65358), (65327, 65359),
  (65328, 65360), (65329, 65361), (65330, 65362), (65331, 65363), (65332, 65364), (65333, 65365),
  (65334, 65366), (65335, 65367), (65336, 65368), (65337, 65369), (65338, 65370), (66560, 66600),
  (66561, 66601), (66562, 66602), (66563, 66603), (66564, 66604), (66565, 66605), (66566, 66606),
  (66567, 66607), (66568, 66608), (66569, 66609), (66570, 66610), (66571, 66611), (66572, 66612),
  (66573, 66613), (66574, 66614), (66575, 66615), (66576, 66616), (66577, 66617), (66578, 66618),
  (66579, 66619), (66580, 66620), (66581, 66621), (66582, 66622), (66583, 66623), (66584, 66624),
  (66585, 66625), (66586, 66626), (66587, 66627), (66588, 66628), (66589, 66629), (66590, 66630),
  (66591, 66631), (66592, 66632), (66593, 66633), (66594, 66634), (66595, 66635), (66596, 66636),
  (66597, 66637), (66598, 66638), (66599, 66639), (66736, 66776), (66737, 66777), (66738, 66778),
  (66739, 66779), (66740, 66780), (66741, 66781), (66742, 66782), (66743, 66783), (66744, 66784),
  (66745, 66785), (66746, 66786), (66747, 66787), (66748, 66788), (66749, 66789), (66750, 66790),
  (66751, 66791), (66752, 66792), (66753, 66793), (66754, 66794), (66755, 66795), (66756, 66796),
  (66757, 66797), (66758, 66798), (66759, 66799), (66760, 66800), (66761, 66801), (66762, 66802),
  (66763, 66803), (66764, 66804), (66765, 66805), (66766, 66806), (66767, 66807), (66768, 66808),
  (66769, 66809), (66770, 66810), (66771, 66811), (66928, 66967), (66929, 66968), (66930, 66969),
  (66931, 66970), (66932, 66971), (66933, 66972), (66934, 66973), (66935, 66974), (66936, 66975),
  (66937, 66976), (66938, 66977), (66940, 66979), (66941, 66980), (66942, 66981), (66943, 66982),
  (66944, 66983), (66945, 66984), (66946, 66985), (66947, 66986), (66948, 66987), (66949, 66988),
  (66950, 66989), (66951, 66990), (66952, 66991), (66953, 66992), (66954, 66993), (66956, 66995),
  (66957, 66996), (66958, 66997), (66959, 66998), (66960, 66999), (66961, 67000), (66962, 67001),
  (66964, 67003), (66965, 67004), (68736, 68800), (68737, 68801), (68738, 68802), (68739, 68803),
  (68740, 68804), (68741, 68805), (68742, 68806), (68743, 68807), (68744, 68808), (68745, 68809),
  (68746, 68810), (68747, 68811), (68748, 68812), (68749, 68813), (68750, 68814), (68751, 68815),
  (68752, 68816), (68753, 68817), (68754, 68818), (68755, 68819), (68756, 68820), (68757, 68821),
  (68758, 68822), (68759, 68823), (68760, 68824), (68761, 68825), (68762, 68826), (68763, 68827),
  (68764, 68828), (68765, 68829), (68766, 68830), (68767, 68831), (68768, 68832), (68769, 68833),
  (68770, 68834), (68771, 68835), (68772, 68836), (68773, 68837), (68774, 68838), (68775, 68839),
  (68776, 68840), (68777, 68841), (68778, 68842), (68779, 68843), (68780, 68844), (68781, 68845),
  (68782, 68846), (68783, 68847), (68784, 68848), (68785, 68849), (68786, 68850), (71840, 71872),
  (71841, 71873), (71842, 71874), (71843, 71875), (71844, 71876), (71845, 71877), (71846, 71878),
  (71847, 71879), (71848, 71880), (71849, 71881), (71850, 71882), (71851, 71883), (71852, 71884),
  (71853, 71885), (71854, 71886), (71855, 71887), (71856, 71888), (71857, 71889), (71858, 71890),
  (71859, 71891), (71860, 71892), (71861, 71893), (71862, 71894), (71863, 71895), (71864, 71896),
  (71865, 71897), (71866, 71898), (71867, 71899), (71868, 71900), (71869, 71901), (71870, 71902),
  (71871, 71903), (93760, 93792), (93761, 93793), (93762, 93794), (93763, 93795), (93764, 93796),
  (93765, 93797), (93766, 93798), (93767, 93799), (93768, 93800), (93769, 93801), (93770, 93802),
  (93771, 93803), (93772, 93804), (93773, 93805), (93774, 93806), (93775, 93807), (93776, 93808),
  (93777, 93809), (93778, 93810), (93779, 93811), (93780, 93812), (93781, 93813), (93782, 93814),
  (93783, 93815), (93784, 93816), (93785, 93817), (93786, 93818), (93787, 93819), (93788, 93820),
  (93789, 93821), (93790, 93822), (93791, 93823), (125184, 125218), (125185, 125219),
  (125186, 125220), (125187, 125221), (125188, 125222), (125189, 125223), (125190, 125224),
  (125191, 125225), (125192, 125226), (125193, 125227), (125194, 125228), (125195, 125229),
  (125196, 125230), (125197, 125231), (125198, 125232), (125199, 125233), (125200, 125234),
  (125201, 125235), (125202, 125236), (125203, 125237), (125204, 125238), (125205, 125239),
  (125206, 125240), (125207, 125241), (125208, 125242), (125209, 125243), (125210, 125244),
  (125211, 125245), (125212, 125246), (125213, 125247), (125214, 125248), (125215, 125249),
  (125216, 125250), (125217, 125251)]

/-- Code-point ranges of the Unicode `Cased` property (version 14.0),
needed for the Final_Sigma context of lowercasing. -/
def casedRanges : List (Nat × Nat) := [
  (65, 90), (97, 122), (170, 170), (181, 181), (186, 186), (192, 214), (216, 246), (248, 442),
  (444, 447), (452, 659), (661, 687), (880, 883), (886, 887), (891, 893), (895, 895), (902, 902),
  (904, 906), (908, 908), (910, 929), (931, 1013), (1015, 1153), (1162, 1327), (1329, 1366),
  (1376, 1416), (4256, 4293), (4295, 4295), (4301, 4301), (4304, 4346), (4349, 4351),
  (5024, 5109), (5112, 5117), (7296, 7304), (7312, 7354), (7357, 7359), (7424, 7467),
  (7531, 7543), (7545, 7578), (7680, 7957), (7960, 7965), (7968, 8005), (8008, 8013),
  (8016, 8023), (8025, 8025), (8027, 8027), (8029, 8029), (8031, 8061), (8064, 8116),
  (8118, 8124), (8126, 8126), (8130, 8132), (8134, 8140), (8144, 8147), (8150, 8155),
  (8160, 8172), (8178, 8180), (8182, 8188), (8450, 8450), (8455, 8455), (8458, 8467),
  (8469, 8469), (8473, 8477), (8484, 8484), (8486, 8486), (8488, 8488), (8490, 8493),
  (8495, 8500), (8505, 8505), (8508, 8511), (8517, 8521), (8526, 8526), (8544, 8575),
  (8579, 8580), (9398, 9449), (11264, 11387), (11390, 11492), (11499, 11502), (11506, 11507),
  (11520, 11557), (11559, 11559), (11565, 11565), (42560, 42605), (42624, 42651), (42786, 42863),
  (42865, 42887), (42891, 42894), (42896, 42954), (42960, 42961), (42963, 42963), (42965, 42969),
  (42997, 42998), (43002, 43002), (43824, 43866), (43872, 43880), (43888, 43967), (64256, 64262),
  (64275, 64279), (65313, 65338), (65345, 65370), (66560, 66639), (66736, 66771), (66776, 66811),
  (66928, 66938), (66940, 66954), (66956, 66962), (66964, 66965), (66967, 66977), (66979, 66993),
  (66995, 67001), (67003, 67004), (68736, 68786), (68800, 68850), (71840, 71903), (93760, 93823),
  (119808, 119892), (119894, 119964), (119966, 119967), (119970, 119970), (119973, 119974),
  (119977, 119980), (119982, 119993), (119995, 119995), (119997, 120003), (120005, 120069),
  (120071, 120074), (120077, 120084), (120086, 120092), (120094, 120121), (120123, 120126),
  (120128, 120132), (120134, 120134), (120138, 120144), (120146, 120485), (120488, 120512),
  (120514, 120538), (120540, 120570), (120572, 120596), (120598, 120628), (120630, 120654),
  (120656, 120686), (120688, 120712), (120714, 120744), (120746, 120770), (120772, 120779),
  (122624, 122633), (122635, 122654), (125184, 125251), (127280, 127305), (127312, 127337),
  (127344, 127369)]

/-- Code-point ranges of the Unicode `Case_Ignorable` property
(version 14.0), needed for the Final_Sigma context of lowercasing. -/
def caseIgnorableRanges : List (Nat × Nat) := [
  (39, 39), (46, 46), (58, 58), (94, 94), (96, 96), (168, 168), (173, 173), (175, 175),
  (180, 180), (183, 184), (688, 879), (884, 885), (890, 890), (900, 901), (903, 903),
  (1155, 1161), (1369, 1369), (1375, 1375), (1425, 1469), (1471, 1471), (1473, 1474),
  (1476, 1477), (1479, 1479), (1524, 1524), (1536, 1541), (1552, 1562), (1564, 1564),
  (1600, 1600), (1611, 1631), (1648, 1648), (1750, 1757), (1759, 1768), (1770, 1773),
  (1807, 1807), (1809, 1809), (1840, 1866), (1958, 1968), (2027, 2037), (2042, 2042),
  (2045, 2045), (2070, 2093), (2137, 2139), (2184, 2184), (2192, 2193), (2200, 2207),
  (2249, 2306), (2362, 2362), (2364, 2364), (2369, 2376), (2381, 2381), (2385, 2391),
  (2402, 2403), (2417, 2417), (2433, 2433), (2492, 2492), (2497, 2500), (2509, 2509),
  (2530, 2531), (2558, 2558), (2561, 2562), (2620, 2620), (2625, 2626), (2631, 2632),
  (2635, 2637), (2641, 2641), (2672, 2673), (2677, 2677), (2689, 2690), (2748, 2748),
  (2753, 2757), (2759, 2760), (2765, 2765), (2786, 2787), (2810, 2815), (2817, 2817),
  (2876, 2876), (2879, 2879), (2881, 2884), (2893, 2893), (2901, 2902), (2914, 2915),
  (2946, 2946), (3008, 3008), (3021, 3021), (3072, 3072), (3076, 3076), (3132, 3132),
  (3134, 3136), (3142, 3144), (3146, 3149), (3157, 3158), (3170, 3171), (3201, 3201),
  (3260, 3260), (3263, 3263), (3270, 3270), (3276, 3277), (3298, 3299), (3328, 3329),
  (3387, 3388), (3393, 3396), (3405, 3405), (3426, 3427), (3457, 3457), (3530, 3530),
  (3538, 3540), (3542, 3542), (3633, 3633), (3636, 3642), (3654, 3662), (3761, 3761),
  (3764, 3772), (3782, 3782), (3784, 3789), (3864, 3865), (3893, 3893), (3895, 3895),
  (3897, 3897), (3953, 3966), (3968, 3972), (3974, 3975), (3981, 3991), (3993, 4028),
  (4038, 4038), (4141, 4144), (4146, 4151), (4153, 4154), (4157, 4158), (4184, 4185),
  (4190, 4192), (4209, 4212), (4226, 4226), (4229, 4230), (4237, 4237), (4253, 4253),
  (4348, 4348), (4957, 4959), (5906, 5908), (5938, 5939), (5970, 5971), (6002, 6003),
  (6068, 6069), (6071, 6077), (6086, 6086), (6089, 6099), (6103, 6103), (6109, 6109),
  (6155, 6159), (6211, 6211), (6277, 6278), (6313, 6313), (6432, 6434), (6439, 6440),
  (6450, 6450), (6457, 6459), (6679, 6680), (6683, 6683), (6742, 6742), (6744, 6750),
  (6752, 6752), (6754, 6754), (6757, 6764), (6771, 6780), (6783, 6783), (6823, 6823),
  (6832, 6862), (6912, 6915), (6964, 6964), (6966, 6970), (6972, 6972), (6978, 6978),
  (7019, 7027), (7040, 7041), (7074, 7077), (7080, 7081), (7083, 7085), (7142, 7142),
  (7144, 7145), (7149, 7149), (7151, 7153), (7212, 7219), (7222, 7223), (7288, 7293),
  (7376, 7378), (7380, 7392), (7394, 7400), (7405, 7405), (7412, 7412), (7416, 7417),
  (7468, 7530), (7544, 7544), (7579, 7679), (8125, 8125), (8127, 8129), (8141, 8143),
  (8157, 8159), (8173, 8175), (8189, 8190), (8203, 8207), (8216, 8217), (8228, 8228),
  (8231, 8231), (8234, 8238), (8288, 8292), (8294, 8303), (8305, 8305), (8319, 8319),
  (8336, 8348), (8400, 8432), (11388, 11389), (11503, 11505), (11631, 11631), (11647, 11647),
  (11744, 11775), (11823, 11823), (12293, 12293), (12330, 12333), (12337, 12341), (12347, 12347),
  (12441, 12446), (12540, 12542), (40981, 40981), (42232, 42237), (42508, 42508), (42607, 42610),
  (42612, 42621), (42623, 42623), (42652, 42655), (42736, 42737), (42752, 42785), (42864, 42864),
  (42888, 42890), (42994, 42996), (43000, 43001), (43010, 43010), (43014, 43014), (43019, 43019),
  (43045, 43046), (43052, 43052), (43204, 43205), (43232, 43249), (43263, 43263), (43302, 43309),
  (43335, 43345), (43392, 43394), (43443, 43443), (43446, 43449), (43452, 43453), (43471, 43471),
  (43493, 43494), (43561, 43566), (43569, 43570), (43573, 43574), (43587, 43587), (43596, 43596),
  (43632, 43632), (43644, 43644), (43696, 43696), (43698, 43700), (43703, 43704), (43710, 43711),
  (43713, 43713), (43741, 43741), (43756, 43757), (43763, 43764), (43766, 43766), (43867, 43871),
  (43881, 43883), (44005, 44005), (44008, 44008), (44013, 44013), (64286, 64286), (64434, 64450),
  (65024, 65039), (65043, 65043), (65056, 65071), (65106, 65106), (65109, 65109), (65279, 65279),
  (65287, 65287), (65294, 65294), (65306, 65306), (65342, 65342), (65344, 65344), (65392, 65392),
  (65438, 65439), (65507, 65507), (65529, 65531), (66045, 66045), (66272, 66272), (66422, 66426),
  (67456, 67461), (67463, 67504), (67506, 67514), (68097, 68099), (68101, 68102), (68108, 68111),
  (68152, 68154), (68159, 68159), (68325, 68326), (68900, 68903), (69291, 69292), (69446, 69456),
  (69506, 69509), (69633, 69633), (69688, 69702), (69744, 69744), (69747, 69748), (69759, 69761),
  (69811, 69814), (69817, 69818), (69821, 69821), (69826, 69826), (69837, 69837), (69888, 69890),
  (69927, 69931), (69933, 69940), (70003, 70003), (70016, 70017), (70070, 70078), (70089, 70092),
  (70095, 70095), (70191, 70193), (70196, 70196), (70198, 70199), (70206, 70206), (70367, 70367),
  (70371, 70378), (70400, 70401), (70459, 70460), (70464, 70464), (70502, 70508), (70512, 70516),
  (70712, 70719), (70722, 70724), (70726, 70726), (70750, 70750), (70835, 70840), (70842, 70842),
  (70847, 70848), (70850, 70851), (71090, 71093), (71100, 71101), (71103, 71104), (71132, 71133),
  (71219, 71226), (71229, 71229), (71231, 71232), (71339, 71339), (71341, 71341), (71344, 71349),
  (71351, 71351), (71453, 71455), (71458, 71461), (71463, 71467), (71727, 71735), (71737, 71738),
  (71995, 71996), (71998, 71998), (72003, 72003), (72148, 72151), (72154, 72155), (72160, 72160),
  (72193, 72202), (72243, 72248), (72251, 72254), (72263, 72263), (72273, 72278), (72281, 72283),
  (72330, 72342), (72344, 72345), (72752, 72758), (72760, 72765), (72767, 72767), (72850, 72871),
  (72874, 72880), (72882, 72883), (72885, 72886), (73009, 73014), (73018, 73018), (73020, 73021),
  (73023, 73029), (73031, 73031), (73104, 73105), (73109, 73109), (73111, 73111), (73459, 73460),
  (78896, 78904), (92912, 92916), (92976, 92982), (92992, 92995), (94031, 94031), (94095, 94111),
  (94176, 94177), (94179, 94180), (110576, 110579), (110581, 110587), (110589, 110590),
  (113821, 113822), (113824, 113827), (118528, 118573), (118576, 118598), (119143, 119145),
  (119155, 119170), (119173, 119179), (119210, 119213), (119362, 119364), (121344, 121398),
  (121403, 121452), (121461, 121461), (121476, 121476), (121499, 121503), (121505, 121519),
  (122880, 122886), (122888, 122904), (122907, 122913), (122915, 122916), (122918, 122922),
  (123184, 123197), (123566, 123566), (123628, 123631), (125136, 125142), (125252, 125259),
  (127995, 127999), (917505, 917505), (917536, 917631), (917760, 917999)]

/-- Membership of a code point in a list of inclusive ranges. -/
def inRanges (rs : List (Nat × Nat)) (n : Nat) : Bool :=
  rs.any (fun p => decide (p.1 ≤ n) && decide (n ≤ p.2))

/-- Unicode `Cased` property. -/
def isCased (c : Char) : Bool := inRanges casedRanges c.toNat

/-- Unicode `Case_Ignorable` property. -/
def isCaseIgnorable (c : Char) : Bool := inRanges caseIgnorableRanges c.toNat

/-- Whether the nearest non-case-ignorable character in the given
direction exists and is cased — the two context tests of the Final_Sigma
condition (the backward test receives the preceding characters nearest
first). -/
def nearestCased : List Char → Bool
  | [] => false
  | c :: rest => if isCaseIgnorable c then nearestCased rest else isCased c

/-- Simple (one-to-one) Unicode lowercase mapping of a single character,
with a fast path for ASCII. -/
def simpleLower (c : Char) : Char :=
  if c.toNat < 128 then
    if 65 ≤ c.toNat ∧ c.toNat ≤ 90 then Char.ofNat (c.toNat + 32) else c
  else
    match lowerTable.find? (fun p => p.1 = c.toNat) with
    | some p => Char.ofNat p.2
    | none => c

/-- One pass of `String.prototype.toLowerCase` (Unicode Default Case
Conversion): every character takes its simple lowercase mapping, except
the two locale-insensitive special cases — capital sigma (U+03A3), which
lowercases to final sigma exactly in Final_Sigma context, and capital
dotted I (U+0130), whose full lowercase mapping is `i` followed by a
combining dot above.  `before` holds the characters already passed, the
nearest first, because the Final_Sigma context is evaluated over the
original string. -/
def jsToLowerGo : List Char → List Char → List Char
  | _, [] => []
  | before, c :: rest =>
    (if c.toNat = 931 then
      (if nearestCased before && !nearestCased rest then [Char.ofNat 962]
       else [Char.ofNat 963])
     else if c.toNat = 304 then [Char.ofNat 105, Char.ofNat 775]
     else [simpleLower c]) ++ jsToLowerGo (c :: before) rest

/-- Embeds `String.prototype.toLowerCase` on a character list. -/
def jsToLower (l : List Char) : List Char := jsToLowerGo [] l

/-- Result shape of `checkForSpam`. -/
structure SpamCheckResult where
  isSpam : Bool
  reason : Option String := none
deriving DecidableEq, Repr

/-- Embeds `checkForSpam` (lines 59-85): repeated-character check over the
UTF-16 code units, then URL-count check, then word-repetition check on the
Unicode-lowercased, whitespace-split words; first match wins.  The URL
pattern and the `\s` class consist of ASCII and BMP code points only, so
for those two checks unit-level and character-level matching coincide and
they are modelled over characters. -/
def checkForSpam (content : String) : SpamCheckResult :=
  if hasRepeatedRun (utf16 content.toList) then
    { isSpam := true, reason := some "Too many repeated characters" }
  else if 3 < countUrlMatches content.toList then
    { isSpam := true, reason := some "Too many URLs" }
  else
    let words := splitWs (jsToLower content.toList)
    if 5 < maxWordRepetition words ∧ 10 < words.length then
      { isSpam := true, reason := some "Excessive word repetition" }
    else
      { isSpam := false }

/-- The module-level `recentResponsesByIP` state: per IP, per question id,
the fingerprint set in insertion order (oldest first).  Looking up a
missing IP or question id yields the empty set, which models the
create-on-demand of the nested `Map`s. -/
structure ResponseStore where
  sets : String → String → List (List Char)

/-- A response store with no fingerprints recorded. -/
def ResponseStore.empty : ResponseStore := { sets := fun _ _ => [] }

/-- Embeds `response.toLowerCase().trim()` (line 101): the normalized
fingerprint of a submission, using the Unicode lowercasing `jsToLower`
and trimming the `\s` whitespace set at both ends. -/
def normalizeResponse (response : String) : List Char :=
  (((jsToLower response.toList).dropWhile isJsWhitespace).reverse.dropWhile
      isJsWhitespace).reverse

/-- Embeds `isDuplicateResponse` (lines 90-116): returns whether the normalized
text was already recorded for this (ip, questionId); if not, records it,
truncating to the most recent 100 entries when the set exceeds 100. -/
def isDuplicateResponse (st : ResponseStore) (questionId response ip : String) :
    Bool × ResponseStore :=
  let responseSet := st.sets ip questionId
  let normalized := normalizeResponse response
  if normalized ∈ responseSet then
    (true, st)
  else
    let added := responseSet ++ [normalized]
    let trimmed := if 100 < added.length then added.drop (added.length - 100) else added
    (false,
     { sets := fun i q => if i = ip ∧ q = questionId then trimmed else st.sets i q })

/-- The state a check operates on for a given key: the stored value (fresh
when absent), with the hour/day rollover and then the short-window
rollover applied — the read-and-reset pipeline shared by both limiters. -/
def effectiveState (windowMs : Nat) (store : CounterStore) (key : String)
    (now : Nat) : RateLimitInfo :=
  resetWindow windowMs now
    (resetHourDay now (currentOrFresh ((store.data key).map Prod.fst) now))

/-- All three counters incremented by one. -/
def incrementAll (s : RateLimitInfo) : RateLimitInfo :=
  { s with
      dailyCount := s.dailyCount + 1
      hourlyCount := s.hourlyCount + 1
      windowCount := s.windowCount + 1 }

/-- A counter state passes a three-tier limit check. -/
def belowLimits (L : TierLimits) (info : RateLimitInfo) : Prop :=
  info.dailyCount < L.PER_DAY ∧ info.hourlyCount < L.PER_HOUR ∧
    info.windowCount < L.PER_MINUTE

/-- What the next check on `key` reads back from the store: the stored
value interpreted as a `RateLimitInfo` record. -/
def readStoredInfo (store : CounterStore) (k : String) : Option RateLimitInfo :=
  ((store.data k).map Prod.fst).bind RateLimitInfo.decode

/-- A position where the regex `https?:\\/\\/` can match: the text from
there starts with `https://` or `http://` (the two can never overlap, and
no position admits both). -/
def urlAt (l : List Char) (i : Nat) : Bool :=
  List.isPrefixOf "https://".toList (l.drop i) || List.isPrefixOf "http://".toList (l.drop i)

/-- The claim's spam rule (a), amended: some single character that is not
a line terminator and lies in the Basic Multilingual Plane repeats at
least 10 times consecutively (an astral character's surrogate pairs never
form a run for the UTF-16-based regex). -/
def ruleRepeatedChars (content : String) : Prop :=
  ∃ l1 c l2, content.toList = l1 ++ List.replicate 10 c ++ l2 ∧
    isLineTerminator c = false ∧ c.toNat < 65536

/-- The claim's spam rule (b): more than 3 positions of the text carry an
`http://` or `https://` URL-scheme prefix. -/
def ruleUrlCount (content : String) : Prop :=
  3 < (List.range content.toList.length).countP (fun i => urlAt content.toList i)

/-- The claim's spam rule (c): after lower-casing and whitespace-splitting,
some word occurs more than 5 times and there are more than 10 words. -/
def ruleWordRepetition (content : String) : Prop :=
  (∃ w ∈ splitWs (jsToLower content.toList),
    5 < (splitWs (jsToLower content.toList)).count w) ∧
  10 < (splitWs (jsToLower content.toList)).length

theorem append_ne_of_ne_at (p q : String) (i : Nat)
    (hip : i < p.data.length) (hiq : i < q.data.length)
    (hc : p.data[i]? ≠ q.data[i]?) :
    ∀ a b : String, p ++ a ≠ q ++ b := by
  intro a b h
  apply hc
  have hd2 : p.data ++ a.data = q.data ++ b.data := congrArg String.data h
  calc p.data[i]? = (p.data ++ a.data)[i]? := (List.getElem?_append_left hip).symm
    _ = (q.data ++ b.data)[i]? := by rw [hd2]
    _ = q.data[i]? := List.getElem?_append_left hiq

theorem mwKey_ne_ipLimitKey (a b : String) : mwKey a ≠ ipLimitKey b :=
  append_ne_of_ne_at _ _ 11 (by decide) (by decide) (by decide) a b

theorem mwKey_ne_questionLimitKey (a b : String) : mwKey a ≠ questionLimitKey b :=
  append_ne_of_ne_at _ _ 11 (by decide) (by decide) (by decide) a b

theorem ipLimitKey_ne_questionLimitKey (a b : String) :
    ipLimitKey a ≠ questionLimitKey b :=
  append_ne_of_ne_at _ _ 21 (by decide) (by decide) (by decide) a b

theorem setData_get_same (s : CounterStore) (k : String) (v : RateLimitInfo) (ex : Nat) :
    (s.setData k v ex).data k = some (v.encode, ex) := by
  simp [CounterStore.setData]

theorem setData_get_other (s : CounterStore) (k k2 : String) (v : RateLimitInfo) (ex : Nat)
    (h : k2 ≠ k) : (s.setData k v ex).data k2 = s.data k2 := by
  simp [CounterStore.setData, h]

theorem setData_failing (s : CounterStore) (k : String) (v : RateLimitInfo) (ex : Nat) :
    (s.setData k v ex).failing = s.failing := rfl

theorem mw_try_eq (store : CounterStore) (clientIp : String) (now : Nat) (config : MWConfig)
    (h : store.failing = false) :
    rateLimitMiddlewareTry store clientIp now config =
      .ok (let s1 := effectiveState (mwWindowMs config) store (mwKey clientIp) now
           if s1.windowCount ≥ mwMax config then
             (MWOutcome.tooManyRequests (mwMessage config) (mwMax config)
                (s1.lastReset + mwWindowMs config), store)
           else
             (MWOutcome.next,
              store.setData (mwKey clientIp)
                { s1 with windowCount := s1.windowCount + 1 } (24 * 60 * 60))) := by
  simp only [rateLimitMiddlewareTry, effectiveState,
    CounterStore.get, CounterStore.set, h, Bool.false_eq_true, if_false]
  split <;> simp [*]

theorem mw_step (store : CounterStore) (clientIp : String) (now : Nat) (config : MWConfig)
    (h : store.failing = false) :
    rateLimitMiddleware store clientIp now config =
      (let s1 := effectiveState (mwWindowMs config) store (mwKey clientIp) now
       if s1.windowCount ≥ mwMax config then
         (MWOutcome.tooManyRequests (mwMessage config) (mwMax config)
            (s1.lastReset + mwWindowMs config), store)
       else
         (MWOutcome.next,
          store.setData (mwKey clientIp)
            { s1 with windowCount := s1.windowCount + 1 } (24 * 60 * 60))) := by
  unfold rateLimitMiddleware
  rw [mw_try_eq store clientIp now config h]

theorem resp_try_eq (store : CounterStore) (questionId clientIp : String) (now : Nat)
    (h : store.failing = false) :
    checkResponseRateLimitTry store questionId clientIp now =
      .ok (let si := effectiveState RATE_LIMIT_WINDOW store (ipLimitKey clientIp) now
           let sq := effectiveState RATE_LIMIT_WINDOW store (questionLimitKey questionId) now
           if si.dailyCount ≥ RESPONSE_LIMITS.PER_IP.PER_DAY then
             ({ allowed := false, error := some "Daily response limit reached" }, store)
           else if si.hourlyCount ≥ RESPONSE_LIMITS.PER_IP.PER_HOUR then
             ({ allowed := false, error := some "Hourly response limit reached" }, store)
           else if si.windowCount ≥ RESPONSE_LIMITS.PER_IP.PER_MINUTE then
             ({ allowed := false,
                error := some "Too many responses, please wait a minute" }, store)
           else if sq.dailyCount ≥ RESPONSE_LIMITS.PER_QUESTION.PER_DAY then
             ({ allowed := false,
                error := some "This question has reached its daily response limit" }, store)
           else if sq.hourlyCount ≥ RESPONSE_LIMITS.PER_QUESTION.PER_HOUR then
             ({ allowed := false,
                error := some "This question has reached its hourly response limit" }, store)
           else if sq.windowCount ≥ RESPONSE_LIMITS.PER_QUESTION.PER_MINUTE then
             ({ allowed := false,
                error := some "Too many responses to this question, please wait a minute" },
              store)
           else
             ({ allowed := true, error := none },
              (store.setData (ipLimitKey clientIp) (incrementAll si)
                  (24 * 60 * 60)).setData
                (questionLimitKey questionId) (incrementAll sq) (24 * 60 * 60))) := by
  simp only [checkResponseRateLimitTry, effectiveState, incrementAll,
    CounterStore.get, CounterStore.set, CounterStore.setData, h,
    Bool.false_eq_true, if_false]
  split_ifs <;> rfl

theorem resp_step (store : CounterStore) (questionId clientIp : String) (now : Nat)
    (h : store.failing = false) :
    checkResponseRateLimit store questionId clientIp now =
      (let si := effectiveState RATE_LIMIT_WINDOW store (ipLimitKey clientIp) now
       let sq := effectiveState RATE_LIMIT_WINDOW store (questionLimitKey questionId) now
       if si.dailyCount ≥ RESPONSE_LIMITS.PER_IP.PER_DAY then
         ({ allowed := false, error := some "Daily response limit reached" }, store)
       else if si.hourlyCount ≥ RESPONSE_LIMITS.PER_IP.PER_HOUR then
         ({ allowed := false, error := some "Hourly response limit reached" }, store)
       else if si.windowCount ≥ RESPONSE_LIMITS.PER_IP.PER_MINUTE then
         ({ allowed := false,
            error := some "Too many responses, please wait a minute" }, store)
       else if sq.dailyCount ≥ RESPONSE_LIMITS.PER_QUESTION.PER_DAY then
         ({ allowed := false,
            error := some "This question has reached its daily response limit" }, store)
       else if sq.hourlyCount ≥ RESPONSE_LIMITS.PER_QUESTION.PER_HOUR then
         ({ allowed := false,
            error := some "This question has reached its hourly response limit" }, store)
       else if sq.windowCount ≥ RESPONSE_LIMITS.PER_QUESTION.PER_MINUTE then
         ({ allowed := false,
            error := some "Too many responses to this question, please wait a minute" },
          store)
       else
         ({ allowed := true, error := none },
          (store.setData (ipLimitKey clientIp) (incrementAll si)
              (24 * 60 * 60)).setData
            (questionLimitKey questionId) (incrementAll sq) (24 * 60 * 60))) := by
  unfold checkResponseRateLimit
  rw [resp_try_eq store questionId clientIp now h]

theorem mw_fail_eq (store : CounterStore) (clientIp : String) (now : Nat)
    (config : MWConfig) (h : store.failing = true) :
    rateLimitMiddleware store clientIp now config = (MWOutcome.next, store) := by
  simp [rateLimitMiddleware, rateLimitMiddlewareTry, CounterStore.get, h]

theorem resp_fail_eq (store : CounterStore) (questionId clientIp : String) (now : Nat)
    (h : store.failing = true) :
    checkResponseRateLimit store questionId clientIp now =
      ({ allowed := true, error := none }, store) := by
  simp [checkResponseRateLimit, checkResponseRateLimitTry, CounterStore.get, h]

/-- C1: if every Counter Store operation fails, both limiters admit:
`rateLimitMiddleware` returns the pass-through outcome and
`checkResponseRateLimit` returns allowed, leaving the store untouched. -/
theorem rateLimit_fails_open (store : CounterStore) (questionId clientIp : String)
    (now : Nat) (config : MWConfig) (h : store.failing = true) :
    rateLimitMiddleware store clientIp now config = (MWOutcome.next, store) ∧
    checkResponseRateLimit store questionId clientIp now =
      ({ allowed := true, error := none }, store) :=
  ⟨mw_fail_eq store clientIp now config h, resp_fail_eq store questionId clientIp now h⟩

/-- Witness for C1 at a concrete always-failing store. -/
theorem rateLimit_fails_open_witness :
    rateLimitMiddleware { data := fun _ => none, failing := true } "203.0.113.7" 1000 {} =
      (MWOutcome.next, { data := fun _ => none, failing := true }) ∧
    checkResponseRateLimit { data := fun _ => none, failing := true } "q1" "203.0.113.7" 1000 =
      ({ allowed := true, error := none }, { data := fun _ => none, failing := true }) :=
  rateLimit_fails_open _ _ _ _ _ rfl

/-- C10: a `0` in the public config is indistinguishable from an absent
field — `max = 0` still enforces the default of 3 and `windowMs = 0` still
uses the default 60000 ms window — and no configuration can make the
effective maximum 0, so a deny-all limit cannot be configured. -/
theorem mw_zero_config_is_default :
    (∀ w msg, mwMax { windowMs := w, max := some 0, message := msg } = 3 ∧
              mwMax { windowMs := w, max := none, message := msg } = 3) ∧
    (∀ m msg, mwWindowMs { windowMs := some 0, max := m, message := msg } = 60000 ∧
              mwWindowMs { windowMs := none, max := m, message := msg } = 60000) ∧
    (∀ config : MWConfig, 0 < mwMax config) ∧
    (∀ store clientIp now msg,
      rateLimitMiddleware store clientIp now
          { windowMs := some 0, max := some 0, message := msg } =
      rateLimitMiddleware store clientIp now
          { windowMs := none, max := none, message := msg }) := by
  refine ⟨?_, ?_, ?_, ?_⟩
  · intro w msg
    constructor <;> simp [mwMax, jsOrNat, QUESTION_LIMITS]
  · intro m msg
    constructor <;> simp [mwWindowMs, jsOrNat, RATE_LIMIT_WINDOW]
  · intro config
    unfold mwMax jsOrNat
    cases hm : config.max with
    | none => simp [QUESTION_LIMITS]
    | some v =>
      by_cases hv : v = 0 <;> simp [hv, QUESTION_LIMITS]
      omega
  · intro store clientIp now msg
    simp [rateLimitMiddleware, rateLimitMiddlewareTry, mwWindowMs, mwMax,
      mwMessage, jsOrNat]

/-- C5: on a check whose elapsed time since the stored `lastReset` is at
least one hour but under 24 hours, the hour/day rollover zeroes only
`hourlyCount`, preserving `dailyCount` (and `windowCount` and
`lastReset`); at 24 hours or more it zeroes all three counters. -/
theorem hourly_daily_rollover (now : Nat) (info : RateLimitInfo) :
    (info.lastReset + 3600000 ≤ now → now < info.lastReset + 86400000 →
      resetHourDay now info =
        { dailyCount := info.dailyCount, hourlyCount := 0,
          windowCount := info.windowCount, lastReset := info.lastReset }) ∧
    (info.lastReset + 86400000 ≤ now →
      resetHourDay now info =
        { dailyCount := 0, hourlyCount := 0, windowCount := 0,
          lastReset := info.lastReset }) := by
  constructor
  · intro h1 h2
    unfold resetHourDay
    split_ifs with hd hh
    · exfalso
      omega
    · rfl
    · exfalso
      omega
  · intro h1
    unfold resetHourDay
    split_ifs with hd hh
    · rfl
    · exfalso
      omega
    · exfalso
      omega

/-- Witness for C5: an hour-rollover at 2h elapsed and a full rollover at
25h elapsed. -/
theorem hourly_daily_rollover_witness :
    resetHourDay 7200000 (⟨7, 5, 2, 0⟩ : RateLimitInfo) =
      (⟨7, 0, 2, 0⟩ : RateLimitInfo) ∧
    resetHourDay 90000000 (⟨7, 5, 2, 0⟩ : RateLimitInfo) =
      (⟨0, 0, 0, 0⟩ : RateLimitInfo) :=
  ⟨(hourly_daily_rollover 7200000 _).1 (by decide) (by decide),
   (hourly_daily_rollover 90000000 _).2 (by decide)⟩

theorem dup_insert_eq (st : ResponseStore) (questionId response ip : String)
    (hfresh : normalizeResponse response ∉ st.sets ip questionId) :
    isDuplicateResponse st questionId response ip =
      (false,
       { sets := fun i q =>
           if i = ip ∧ q = questionId then
             (let added := st.sets ip questionId ++ [normalizeResponse response]
              if 100 < added.length then added.drop (added.length - 100) else added)
           else st.sets i q }) := by
  simp [isDuplicateResponse, hfresh]

theorem dup_found_eq (st : ResponseStore) (questionId response ip : String)
    (hmem : normalizeResponse response ∈ st.sets ip questionId) :
    isDuplicateResponse st questionId response ip = (true, st) := by
  simp [isDuplicateResponse, hmem]

theorem mem_trimmed (l : List (List Char)) (x : List Char) :
    x ∈ (if 100 < (l ++ [x]).length then
          (l ++ [x]).drop ((l ++ [x]).length - 100) else (l ++ [x])) := by
  split
  · rw [List.drop_append_of_le_length
      (by simp only [List.length_append, List.length_cons, List.length_nil]; omega)]
    exact List.mem_append_right _ (List.mem_singleton.mpr rfl)
  · exact List.mem_append_right _ (List.mem_singleton.mpr rfl)

/-- C9: the first call with a fresh fingerprint answers `false` and
records the normalized text; any second call whose text normalizes to the
same fingerprint answers `true` and leaves the store exactly as it was. -/
theorem duplicate_filter_records_once (st : ResponseStore)
    (questionId response response2 ip : String)
    (hfresh : normalizeResponse response ∉ st.sets ip questionId)
    (hsame : normalizeResponse response2 = normalizeResponse response) :
    (isDuplicateResponse st questionId response ip).1 = false ∧
    normalizeResponse response ∈
      (isDuplicateResponse st questionId response ip).2.sets ip questionId ∧
    isDuplicateResponse (isDuplicateResponse st questionId response ip).2
        questionId response2 ip =
      (true, (isDuplicateResponse st questionId response ip).2) := by
  rw [dup_insert_eq st questionId response ip hfresh]
  have hsets : ∀ q2 : String, q2 = questionId →
      ({ sets := fun i q =>
           if i = ip ∧ q = questionId then
             (let added := st.sets ip questionId ++ [normalizeResponse response]
              if 100 < added.length then added.drop (added.length - 100) else added)
           else st.sets i q } : ResponseStore).sets ip q2 =
        (let added := st.sets ip questionId ++ [normalizeResponse response]
         if 100 < added.length then added.drop (added.length - 100) else added) := by
    intro q2 hq
    simp [hq]
  refine ⟨rfl, ?_, ?_⟩
  · rw [hsets questionId rfl]
    exact mem_trimmed _ _
  · apply dup_found_eq
    rw [hsame, hsets questionId rfl]
    exact mem_trimmed _ _

/-- Witness for C9 on a concrete empty store: " HELLO  " and "hello"
normalize identically. -/
theorem duplicate_filter_records_once_witness :
    (isDuplicateResponse ResponseStore.empty "q1" " HELLO  " "1.2.3.4").1 = false ∧
    normalizeResponse " HELLO  " ∈
      (isDuplicateResponse ResponseStore.empty "q1" " HELLO  " "1.2.3.4").2.sets
        "1.2.3.4" "q1" ∧
    isDuplicateResponse
        (isDuplicateResponse ResponseStore.empty "q1" " HELLO  " "1.2.3.4").2
        "q1" "hello" "1.2.3.4" =
      (true, (isDuplicateResponse ResponseStore.empty "q1" " HELLO  " "1.2.3.4").2) :=
  duplicate_filter_records_once ResponseStore.empty "q1" " HELLO  " "hello" "1.2.3.4"
    (by simp [ResponseStore.empty]) (by decide)

/-- C2: the dual-key response limiter allows a request iff both the
identity-scoped and the resource-scoped post-rollover states are below all
three of their limits, and on denial the Counter Store is left exactly as
it was (neither key is incremented). -/
theorem dual_key_admission (store : CounterStore) (questionId clientIp : String)
    (now : Nat) (h : store.failing = false) :
    ((checkResponseRateLimit store questionId clientIp now).1.allowed = true ↔
      (belowLimits RESPONSE_LIMITS.PER_IP
          (effectiveState RATE_LIMIT_WINDOW store (ipLimitKey clientIp) now) ∧
       belowLimits RESPONSE_LIMITS.PER_QUESTION
          (effectiveState RATE_LIMIT_WINDOW store (questionLimitKey questionId) now))) ∧
    ((checkResponseRateLimit store questionId clientIp now).1.allowed = false →
      (checkResponseRateLimit store questionId clientIp now).2 = store) := by
  rw [resp_step store questionId clientIp now h]
  simp only [ge_iff_le]
  split_ifs with h1 h2 h3 h4 h5 h6 <;>
    constructor <;>
    simp_all [belowLimits, RESPONSE_LIMITS]

/-- Witness for C2 on a concrete fresh store. -/
theorem dual_key_admission_witness :
    ((checkResponseRateLimit CounterStore.empty "q1" "1.2.3.4" 0).1.allowed = true ↔
      (belowLimits RESPONSE_LIMITS.PER_IP
          (effectiveState RATE_LIMIT_WINDOW CounterStore.empty (ipLimitKey "1.2.3.4") 0) ∧
       belowLimits RESPONSE_LIMITS.PER_QUESTION
          (effectiveState RATE_LIMIT_WINDOW CounterStore.empty (questionLimitKey "q1") 0))) ∧
    ((checkResponseRateLimit CounterStore.empty "q1" "1.2.3.4" 0).1.allowed = false →
      (checkResponseRateLimit CounterStore.empty "q1" "1.2.3.4" 0).2 =
        CounterStore.empty) :=
  dual_key_admission CounterStore.empty "q1" "1.2.3.4" 0 rfl

theorem mw_next_store (store : CounterStore) (clientIp : String) (now : Nat)
    (config : MWConfig) (h : store.failing = false)
    (hn : (rateLimitMiddleware store clientIp now config).1 = MWOutcome.next) :
    (rateLimitMiddleware store clientIp now config).2 =
      store.setData (mwKey clientIp)
        (RateLimitInfo.mk
          (effectiveState (mwWindowMs config) store (mwKey clientIp) now).dailyCount
          (effectiveState (mwWindowMs config) store (mwKey clientIp) now).hourlyCount
          ((effectiveState (mwWindowMs config) store (mwKey clientIp) now).windowCount + 1)
          (effectiveState (mwWindowMs config) store (mwKey clientIp) now).lastReset)
        (24 * 60 * 60) := by
  rw [mw_step store clientIp now config h] at hn ⊢
  simp only [ge_iff_le] at hn ⊢
  split_ifs at hn ⊢ with hc
  all_goals rfl

theorem resp_allowed_store (store : CounterStore) (questionId clientIp : String)
    (now : Nat) (h : store.failing = false)
    (ha : (checkResponseRateLimit store questionId clientIp now).1.allowed = true) :
    (checkResponseRateLimit store questionId clientIp now).2 =
      (store.setData (ipLimitKey clientIp)
          (incrementAll (effectiveState RATE_LIMIT_WINDOW store (ipLimitKey clientIp) now))
          (24 * 60 * 60)).setData
        (questionLimitKey questionId)
        (incrementAll (effectiveState RATE_LIMIT_WINDOW store (questionLimitKey questionId) now))
        (24 * 60 * 60) := by
  rw [resp_step store questionId clientIp now h] at ha ⊢
  simp only [ge_iff_le] at ha ⊢
  split_ifs at ha ⊢
  all_goals rfl

/-- C3 counterexample: a fresh admitted `rateLimitMiddleware` check
persists `dailyCount = 0`, not the prior `dailyCount` (0) incremented —
only `windowCount` is incremented by the single-key limiter. -/
theorem mw_increments_only_window_counter :
    (rateLimitMiddleware CounterStore.empty "1.2.3.4" 0 {}).1 = MWOutcome.next ∧
    readStoredInfo (rateLimitMiddleware CounterStore.empty "1.2.3.4" 0 {}).2
        (mwKey "1.2.3.4") =
      some { dailyCount := 0, hourlyCount := 0, windowCount := 1, lastReset := 0 } ∧
    (0 : Nat) ≠ 0 + 1 := by decide

/-- C3 amended: on admission `checkResponseRateLimit` persists both keys
with all three counters incremented and a refreshed 24-hour expiry, while
`rateLimitMiddleware` persists its key with a refreshed 24-hour expiry but
increments only `windowCount`, writing `dailyCount` and `hourlyCount` back
unchanged from the post-rollover state. -/
theorem allowed_check_persistence (store : CounterStore)
    (questionId clientIp : String) (now : Nat) (config : MWConfig)
    (h : store.failing = false) :
    ((rateLimitMiddleware store clientIp now config).1 = MWOutcome.next →
      (rateLimitMiddleware store clientIp now config).2.data (mwKey clientIp) =
        some ((RateLimitInfo.mk
            (effectiveState (mwWindowMs config) store (mwKey clientIp) now).dailyCount
            (effectiveState (mwWindowMs config) store (mwKey clientIp) now).hourlyCount
            ((effectiveState (mwWindowMs config) store (mwKey clientIp) now).windowCount + 1)
            (effectiveState (mwWindowMs config) store (mwKey clientIp) now).lastReset).encode,
          24 * 60 * 60)) ∧
    ((checkResponseRateLimit store questionId clientIp now).1.allowed = true →
      (checkResponseRateLimit store questionId clientIp now).2.data (ipLimitKey clientIp) =
        some ((incrementAll
            (effectiveState RATE_LIMIT_WINDOW store (ipLimitKey clientIp) now)).encode,
          24 * 60 * 60) ∧
      (checkResponseRateLimit store questionId clientIp now).2.data
          (questionLimitKey questionId) =
        some ((incrementAll
            (effectiveState RATE_LIMIT_WINDOW store (questionLimitKey questionId) now)).encode,
          24 * 60 * 60)) := by
  constructor
  · intro hn
    rw [mw_next_store store clientIp now config h hn]
    exact setData_get_same _ _ _ _
  · intro ha
    rw [resp_allowed_store store questionId clientIp now h ha]
    constructor
    · rw [setData_get_other _ _ _ _ _ (ipLimitKey_ne_questionLimitKey clientIp questionId)]
      exact setData_get_same _ _ _ _
    · exact setData_get_same _ _ _ _

/-- Witness for the amended C3 on a fresh store at time 0. -/
theorem allowed_check_persistence_witness :
    (rateLimitMiddleware CounterStore.empty "1.2.3.4" 0 {}).2.data (mwKey "1.2.3.4") =
      some ((RateLimitInfo.mk
          (effectiveState (mwWindowMs {}) CounterStore.empty (mwKey "1.2.3.4") 0).dailyCount
          (effectiveState (mwWindowMs {}) CounterStore.empty (mwKey "1.2.3.4") 0).hourlyCount
          ((effectiveState (mwWindowMs {}) CounterStore.empty (mwKey "1.2.3.4") 0).windowCount + 1)
          (effectiveState (mwWindowMs {}) CounterStore.empty (mwKey "1.2.3.4") 0).lastReset).encode,
        24 * 60 * 60) ∧
    (checkResponseRateLimit CounterStore.empty "q1" "1.2.3.4" 0).2.data
        (ipLimitKey "1.2.3.4") =
      some ((incrementAll
          (effectiveState RATE_LIMIT_WINDOW CounterStore.empty (ipLimitKey "1.2.3.4") 0)).encode,
        24 * 60 * 60) :=
  ⟨(allowed_check_persistence CounterStore.empty "q1" "1.2.3.4" 0 {} rfl).1 (by decide),
   ((allowed_check_persistence CounterStore.empty "q1" "1.2.3.4" 0 {} rfl).2 (by decide)).1⟩

/-- C6: serialization of the counter state round-trips exactly, and after
an admitted check the value the next check reads back from either key is
exactly the structured record that was persisted — for
`checkResponseRateLimit` (both keys) and for `rateLimitMiddleware`. -/
theorem stored_roundtrip_exact :
    (∀ s : RateLimitInfo, RateLimitInfo.decode (RateLimitInfo.encode s) = some s) ∧
    (∀ (store : CounterStore) (questionId clientIp : String) (now : Nat),
      store.failing = false →
      (checkResponseRateLimit store questionId clientIp now).1.allowed = true →
      readStoredInfo (checkResponseRateLimit store questionId clientIp now).2
          (ipLimitKey clientIp) =
        some (incrementAll
          (effectiveState RATE_LIMIT_WINDOW store (ipLimitKey clientIp) now)) ∧
      readStoredInfo (checkResponseRateLimit store questionId clientIp now).2
          (questionLimitKey questionId) =
        some (incrementAll
          (effectiveState RATE_LIMIT_WINDOW store (questionLimitKey questionId) now))) ∧
    (∀ (store : CounterStore) (clientIp : String) (now : Nat) (config : MWConfig),
      store.failing = false →
      (rateLimitMiddleware store clientIp now config).1 = MWOutcome.next →
      readStoredInfo (rateLimitMiddleware store clientIp now config).2 (mwKey clientIp) =
        some (RateLimitInfo.mk
          (effectiveState (mwWindowMs config) store (mwKey clientIp) now).dailyCount
          (effectiveState (mwWindowMs config) store (mwKey clientIp) now).hourlyCount
          ((effectiveState (mwWindowMs config) store (mwKey clientIp) now).windowCount + 1)
          (effectiveState (mwWindowMs config) store (mwKey clientIp) now).lastReset)) := by
  have hrt : ∀ s : RateLimitInfo, RateLimitInfo.decode (RateLimitInfo.encode s) = some s := by
    intro s
    obtain ⟨d, hc, w, r⟩ := s
    simp [RateLimitInfo.encode, RateLimitInfo.decode]
  refine ⟨hrt, ?_, ?_⟩
  · intro store questionId clientIp now h ha
    rw [resp_allowed_store store questionId clientIp now h ha]
    constructor
    · unfold readStoredInfo
      rw [setData_get_other _ _ _ _ _ (ipLimitKey_ne_questionLimitKey clientIp questionId),
        setData_get_same]
      simp [hrt]
    · unfold readStoredInfo
      rw [setData_get_same]
      simp [hrt]
  · intro store clientIp now config h hn
    rw [mw_next_store store clientIp now config h hn]
    unfold readStoredInfo
    rw [setData_get_same]
    simp [hrt]

/-- Witness for C6 on a fresh store at time 0. -/
theorem stored_roundtrip_exact_witness :
    RateLimitInfo.decode (RateLimitInfo.encode ⟨3, 2, 1, 77⟩) = some ⟨3, 2, 1, 77⟩ ∧
    readStoredInfo (checkResponseRateLimit CounterStore.empty "q1" "1.2.3.4" 0).2
        (ipLimitKey "1.2.3.4") =
      some (incrementAll
        (effectiveState RATE_LIMIT_WINDOW CounterStore.empty (ipLimitKey "1.2.3.4") 0)) ∧
    readStoredInfo (rateLimitMiddleware CounterStore.empty "1.2.3.4" 0 {}).2
        (mwKey "1.2.3.4") =
      some (RateLimitInfo.mk
        (effectiveState (mwWindowMs {}) CounterStore.empty (mwKey "1.2.3.4") 0).dailyCount
        (effectiveState (mwWindowMs {}) CounterStore.empty (mwKey "1.2.3.4") 0).hourlyCount
        ((effectiveState (mwWindowMs {}) CounterStore.empty (mwKey "1.2.3.4") 0).windowCount + 1)
        (effectiveState (mwWindowMs {}) CounterStore.empty (mwKey "1.2.3.4") 0).lastReset) :=
  ⟨stored_roundtrip_exact.1 ⟨3, 2, 1, 77⟩,
   (stored_roundtrip_exact.2.1 CounterStore.empty "q1" "1.2.3.4" 0 rfl (by decide)).1,
   stored_roundtrip_exact.2.2 CounterStore.empty "1.2.3.4" 0 {} rfl (by decide)⟩

/-- C7 counterexample: an admitted summary-generation check (the config the
middleware passes for `/api/summarize`) writes the question-creation
scope's stored state for the same IP — that state changes from absent to a
counted record, because `rateLimitMiddleware` always uses the
`rate_limit:questions:<ip>` key. -/
theorem summary_check_mutates_question_scope :
    (rateLimitMiddleware CounterStore.empty "9.9.9.9" 5
        { windowMs := some 60000, max := some 30,
          message := some "Too many summary requests, please try again later" }).1 =
      MWOutcome.next ∧
    CounterStore.empty.data (mwKey "9.9.9.9") = none ∧
    (rateLimitMiddleware CounterStore.empty "9.9.9.9" 5
        { windowMs := some 60000, max := some 30,
          message := some "Too many summary requests, please try again later" }).2.data
        (mwKey "9.9.9.9") =
      some ((RateLimitInfo.mk 0 0 1 5).encode, 86400) := by decide

/-- C7 amended: `rateLimitMiddleware` keys its state by client identity
alone under the single `rate_limit:questions` scope (so every config,
summary generation included, shares the question-creation state and
touches no other key), `checkResponseRateLimit` touches only its two keys,
and the three key families are pairwise disjoint. -/
theorem rate_limit_key_scopes (store : CounterStore) (questionId clientIp : String)
    (now : Nat) (config : MWConfig) (k : String) :
    (∀ a b : String, mwKey a ≠ ipLimitKey b ∧ mwKey a ≠ questionLimitKey b ∧
       ipLimitKey a ≠ questionLimitKey b) ∧
    (k ≠ mwKey clientIp →
      (rateLimitMiddleware store clientIp now config).2.data k = store.data k) ∧
    (k ≠ ipLimitKey clientIp → k ≠ questionLimitKey questionId →
      (checkResponseRateLimit store questionId clientIp now).2.data k = store.data k) := by
  refine ⟨fun a b => ⟨mwKey_ne_ipLimitKey a b, mwKey_ne_questionLimitKey a b,
    ipLimitKey_ne_questionLimitKey a b⟩, ?_, ?_⟩
  · intro hk
    cases hf : store.failing
    · rw [mw_step store clientIp now config hf]
      simp only [ge_iff_le]
      split_ifs
      · rfl
      · exact setData_get_other _ _ _ _ _ hk
    · rw [mw_fail_eq store clientIp now config hf]
  · intro hk1 hk2
    cases hf : store.failing
    · rw [resp_step store questionId clientIp now hf]
      simp only [ge_iff_le]
      split_ifs
      all_goals try rfl
      rw [setData_get_other _ _ _ _ _ hk2, setData_get_other _ _ _ _ _ hk1]
    · rw [resp_fail_eq store questionId clientIp now hf]

/-- Witness for the amended C7: a check leaves an unrelated key untouched. -/
theorem rate_limit_key_scopes_witness :
    (rateLimitMiddleware CounterStore.empty "1.2.3.4" 0 {}).2.data "unrelated" =
      CounterStore.empty.data "unrelated" ∧
    (checkResponseRateLimit CounterStore.empty "q1" "1.2.3.4" 0).2.data "unrelated" =
      CounterStore.empty.data "unrelated" :=
  ⟨(rate_limit_key_scopes CounterStore.empty "q1" "1.2.3.4" 0 {} "unrelated").2.1
      (by decide),
   (rate_limit_key_scopes CounterStore.empty "q1" "1.2.3.4" 0 {} "unrelated").2.2
      (by decide) (by decide)⟩

theorem decode_encode (s : RateLimitInfo) :
    RateLimitInfo.decode (RateLimitInfo.encode s) = some s := by
  obtain ⟨d, hc, w, r⟩ := s
  simp [RateLimitInfo.encode, RateLimitInfo.decode]

theorem effectiveState_eq (W : Nat) (store : CounterStore) (key : String) (now : Nat)
    (s : RateLimitInfo) (hdata : (store.data key).map Prod.fst = some s.encode) :
    effectiveState W store key now = resetWindow W now (resetHourDay now s) := by
  unfold effectiveState currentOrFresh
  rw [hdata]
  simp [decode_encode]

theorem effectiveState_none (W : Nat) (store : CounterStore) (key : String) (now : Nat)
    (hdata : store.data key = none) :
    effectiveState W store key now =
      resetWindow W now (resetHourDay now (RateLimitInfo.mk 0 0 0 now)) := by
  unfold effectiveState currentOrFresh
  rw [hdata]
  rfl

theorem resets_id_of_in_window (W now k t1 : Nat) (hwin : now - t1 ≤ W)
    (hw24 : W < 86400000) :
    resetWindow W now (resetHourDay now (RateLimitInfo.mk 0 0 k t1)) =
      RateLimitInfo.mk 0 0 k t1 := by
  unfold resetHourDay resetWindow
  split_ifs <;> first | rfl | (exfalso; dsimp only at *; omega)

theorem resets_id_of_in_minute (now k t1 : Nat) (hwin : now - t1 ≤ RATE_LIMIT_WINDOW) :
    resetWindow RATE_LIMIT_WINDOW now (resetHourDay now (RateLimitInfo.mk k k k t1)) =
      RateLimitInfo.mk k k k t1 := by
  simp only [RATE_LIMIT_WINDOW] at hwin
  unfold resetHourDay resetWindow RATE_LIMIT_WINDOW
  split_ifs <;> first | rfl | (exfalso; dsimp only at *; omega)

theorem resetHourDay_lastReset (now : Nat) (s : RateLimitInfo) :
    (resetHourDay now s).lastReset = s.lastReset := by
  unfold resetHourDay
  split_ifs <;> rfl

theorem windowCount_reset_late (W now : Nat) (s : RateLimitInfo)
    (hlate : W < now - s.lastReset) :
    (resetWindow W now (resetHourDay now s)).windowCount = 0 := by
  unfold resetWindow
  simp only [resetHourDay_lastReset]
  rw [if_pos hlate]

theorem dailyCount_le_resets (W now : Nat) (s : RateLimitInfo) :
    (resetWindow W now (resetHourDay now s)).dailyCount ≤ s.dailyCount := by
  unfold resetHourDay resetWindow
  split_ifs <;> simp

theorem hourlyCount_le_resets (W now : Nat) (s : RateLimitInfo) :
    (resetWindow W now (resetHourDay now s)).hourlyCount ≤ s.hourlyCount := by
  unfold resetHourDay resetWindow
  split_ifs <;> simp

theorem mw_step_invariant (store : CounterStore) (clientIp : String) (now : Nat)
    (config : MWConfig) (k t1 : Nat) (hf : store.failing = false)
    (hdata : (store.data (mwKey clientIp)).map Prod.fst =
      some ((RateLimitInfo.mk 0 0 k t1).encode))
    (hwin : now - t1 ≤ mwWindowMs config) (hw24 : mwWindowMs config < 86400000)
    (hk : k < mwMax config) :
    rateLimitMiddleware store clientIp now config =
      (MWOutcome.next,
       store.setData (mwKey clientIp) (RateLimitInfo.mk 0 0 (k + 1) t1) (24 * 60 * 60)) := by
  rw [mw_step store clientIp now config hf]
  have heff : effectiveState (mwWindowMs config) store (mwKey clientIp) now =
      RateLimitInfo.mk 0 0 k t1 := by
    rw [effectiveState_eq _ _ _ _ _ hdata]
    exact resets_id_of_in_window _ _ _ _ hwin hw24
  simp only [ge_iff_le, heff]
  rw [if_neg (show ¬ mwMax config ≤ k by omega)]

theorem mw_first_check (store : CounterStore) (clientIp : String) (t1 : Nat)
    (config : MWConfig) (hf : store.failing = false)
    (hnone : store.data (mwKey clientIp) = none) (hm : 0 < mwMax config) :
    rateLimitMiddleware store clientIp t1 config =
      (MWOutcome.next,
       store.setData (mwKey clientIp) (RateLimitInfo.mk 0 0 1 t1) (24 * 60 * 60)) := by
  rw [mw_step store clientIp t1 config hf]
  have heff : effectiveState (mwWindowMs config) store (mwKey clientIp) t1 =
      RateLimitInfo.mk 0 0 0 t1 := by
    rw [effectiveState_none _ _ _ _ hnone]
    unfold resetHourDay resetWindow
    split_ifs <;> rfl
  simp only [ge_iff_le, heff]
  rw [if_neg (show ¬ mwMax config ≤ 0 by omega)]

theorem runMW_allows_all (clientIp : String) (config : MWConfig) (t1 : Nat)
    (hw24 : mwWindowMs config < 86400000) :
    ∀ (ts : List Nat) (store : CounterStore) (k : Nat),
      store.failing = false →
      (store.data (mwKey clientIp)).map Prod.fst =
        some ((RateLimitInfo.mk 0 0 k t1).encode) →
      k + ts.length ≤ mwMax config →
      (∀ t ∈ ts, t - t1 ≤ mwWindowMs config) →
      (runMW store clientIp config ts).1 = List.replicate ts.length MWOutcome.next ∧
      (runMW store clientIp config ts).2.failing = false ∧
      ((runMW store clientIp config ts).2.data (mwKey clientIp)).map Prod.fst =
        some ((RateLimitInfo.mk 0 0 (k + ts.length) t1).encode)
  | [], store, k => by
    intro hf hdata _ _
    exact ⟨rfl, hf, hdata⟩
  | t :: ts, store, k => by
    intro hf hdata hlen htimes
    have hstep := mw_step_invariant store clientIp t config k t1 hf hdata
      (htimes t (List.mem_cons_self t ts)) hw24
      (by simp only [List.length_cons] at hlen; omega)
    have hrec := runMW_allows_all clientIp config t1 hw24 ts
      (store.setData (mwKey clientIp) (RateLimitInfo.mk 0 0 (k + 1) t1) (24 * 60 * 60))
      (k + 1)
      (by rw [setData_failing]; exact hf)
      (by rw [setData_get_same]; rfl)
      (by simp only [List.length_cons] at hlen; omega)
      (fun u hu => htimes u (List.mem_cons_of_mem t hu))
    simp only [runMW, hstep]
    refine ⟨?_, hrec.2.1, ?_⟩
    · simp [hrec.1, List.replicate_succ]
    · have harith : k + (t :: ts).length = k + 1 + ts.length := by
        simp only [List.length_cons]
        omega
      rw [harith]
      exact hrec.2.2

theorem mw_denied_when_full (store : CounterStore) (clientIp : String) (now : Nat)
    (config : MWConfig) (t1 : Nat) (hf : store.failing = false)
    (hdata : (store.data (mwKey clientIp)).map Prod.fst =
      some ((RateLimitInfo.mk 0 0 (mwMax config) t1).encode))
    (hwin : now - t1 ≤ mwWindowMs config) (hw24 : mwWindowMs config < 86400000) :
    rateLimitMiddleware store clientIp now config =
      (MWOutcome.tooManyRequests (mwMessage config) (mwMax config)
        (t1 + mwWindowMs config), store) := by
  rw [mw_step store clientIp now config hf]
  have heff : effectiveState (mwWindowMs config) store (mwKey clientIp) now =
      RateLimitInfo.mk 0 0 (mwMax config) t1 := by
    rw [effectiveState_eq _ _ _ _ _ hdata]
    exact resets_id_of_in_window _ _ _ _ hwin hw24
  simp only [ge_iff_le, heff]
  rw [if_pos (show mwMax config ≤ (RateLimitInfo.mk 0 0 (mwMax config) t1).windowCount
    from Nat.le_refl _)]

theorem runMW_denied_all (clientIp : String) (config : MWConfig) (t1 : Nat)
    (hw24 : mwWindowMs config < 86400000) :
    ∀ (us : List Nat) (store : CounterStore),
      store.failing = false →
      (store.data (mwKey clientIp)).map Prod.fst =
        some ((RateLimitInfo.mk 0 0 (mwMax config) t1).encode) →
      (∀ u ∈ us, u - t1 ≤ mwWindowMs config) →
      runMW store clientIp config us =
        (List.replicate us.length
          (MWOutcome.tooManyRequests (mwMessage config) (mwMax config)
            (t1 + mwWindowMs config)), store)
  | [], store => by
    intro _ _ _
    rfl
  | u :: us, store => by
    intro hf hdata htimes
    have hstep := mw_denied_when_full store clientIp u config t1 hf hdata
      (htimes u (List.mem_cons_self u us)) hw24
    have hrec := runMW_denied_all clientIp config t1 hw24 us store hf hdata
      (fun v hv => htimes v (List.mem_cons_of_mem u hv))
    simp only [runMW, hstep, hrec, List.length_cons, List.replicate_succ]

theorem mw_allowed_after_window (store : CounterStore) (clientIp : String)
    (now : Nat) (config : MWConfig) (t1 : Nat) (hf : store.failing = false)
    (hdata : (store.data (mwKey clientIp)).map Prod.fst =
      some ((RateLimitInfo.mk 0 0 (mwMax config) t1).encode))
    (hlate : mwWindowMs config < now - t1) (hm : 0 < mwMax config) :
    (rateLimitMiddleware store clientIp now config).1 = MWOutcome.next := by
  rw [mw_step store clientIp now config hf]
  have hwc : (effectiveState (mwWindowMs config) store (mwKey clientIp) now).windowCount
      = 0 := by
    rw [effectiveState_eq _ _ _ _ _ hdata]
    exact windowCount_reset_late _ _ _ hlate
  simp only [ge_iff_le, hwc]
  rw [if_neg (show ¬ mwMax config ≤ 0 by omega)]

theorem resp_step_invariant (store : CounterStore) (questionId clientIp : String)
    (now : Nat) (k t1 : Nat) (hf : store.failing = false)
    (hdi : (store.data (ipLimitKey clientIp)).map Prod.fst =
      some ((RateLimitInfo.mk k k k t1).encode))
    (hdq : (store.data (questionLimitKey questionId)).map Prod.fst =
      some ((RateLimitInfo.mk k k k t1).encode))
    (hwin : now - t1 ≤ RATE_LIMIT_WINDOW) (hk : k < RESPONSE_LIMITS.PER_IP.PER_MINUTE) :
    checkResponseRateLimit store questionId clientIp now =
      ({ allowed := true, error := none },
       (store.setData (ipLimitKey clientIp)
           (RateLimitInfo.mk (k + 1) (k + 1) (k + 1) t1) (24 * 60 * 60)).setData
         (questionLimitKey questionId)
         (RateLimitInfo.mk (k + 1) (k + 1) (k + 1) t1) (24 * 60 * 60)) := by
  rw [resp_step store questionId clientIp now hf]
  have hei : effectiveState RATE_LIMIT_WINDOW store (ipLimitKey clientIp) now =
      RateLimitInfo.mk k k k t1 := by
    rw [effectiveState_eq _ _ _ _ _ hdi]
    exact resets_id_of_in_minute _ _ _ hwin
  have heq : effectiveState RATE_LIMIT_WINDOW store (questionLimitKey questionId) now =
      RateLimitInfo.mk k k k t1 := by
    rw [effectiveState_eq _ _ _ _ _ hdq]
    exact resets_id_of_in_minute _ _ _ hwin
  have hk5 : k < 5 := hk
  simp only [ge_iff_le, hei, heq, RESPONSE_LIMITS]
  rw [if_neg (show ¬ (50 : Nat) ≤ k by omega),
    if_neg (show ¬ (20 : Nat) ≤ k by omega),
    if_neg (show ¬ (5 : Nat) ≤ k by omega),
    if_neg (show ¬ (1000 : Nat) ≤ k by omega),
    if_neg (show ¬ (300 : Nat) ≤ k by omega),
    if_neg (show ¬ (100 : Nat) ≤ k by omega)]
  rfl

theorem resp_first_check (store : CounterStore) (questionId clientIp : String)
    (t1 : Nat) (hf : store.failing = false)
    (hdi : store.data (ipLimitKey clientIp) = none)
    (hdq : store.data (questionLimitKey questionId) = none) :
    checkResponseRateLimit store questionId clientIp t1 =
      ({ allowed := true, error := none },
       (store.setData (ipLimitKey clientIp)
           (RateLimitInfo.mk 1 1 1 t1) (24 * 60 * 60)).setData
         (questionLimitKey questionId)
         (RateLimitInfo.mk 1 1 1 t1) (24 * 60 * 60)) := by
  rw [resp_step store questionId clientIp t1 hf]
  have hz : resetWindow RATE_LIMIT_WINDOW t1
      (resetHourDay t1 (RateLimitInfo.mk 0 0 0 t1)) = RateLimitInfo.mk 0 0 0 t1 := by
    unfold resetHourDay resetWindow
    split_ifs <;> rfl
  have hei : effectiveState RATE_LIMIT_WINDOW store (ipLimitKey clientIp) t1 =
      RateLimitInfo.mk 0 0 0 t1 := by
    rw [effectiveState_none _ _ _ _ hdi]
    exact hz
  have heq : effectiveState RATE_LIMIT_WINDOW store (questionLimitKey questionId) t1 =
      RateLimitInfo.mk 0 0 0 t1 := by
    rw [effectiveState_none _ _ _ _ hdq]
    exact hz
  simp only [ge_iff_le, hei, heq, RESPONSE_LIMITS]
  rw [if_neg (show ¬ (50 : Nat) ≤ 0 by omega),
    if_neg (show ¬ (20 : Nat) ≤ 0 by omega),
    if_neg (show ¬ (5 : Nat) ≤ 0 by omega),
    if_neg (show ¬ (1000 : Nat) ≤ 0 by omega),
    if_neg (show ¬ (300 : Nat) ≤ 0 by omega),
    if_neg (show ¬ (100 : Nat) ≤ 0 by omega)]
  rfl

theorem runResp_allows_all (questionId clientIp : String) (t1 : Nat) :
    ∀ (ts : List Nat) (store : CounterStore) (k : Nat),
      store.failing = false →
      (store.data (ipLimitKey clientIp)).map Prod.fst =
        some ((RateLimitInfo.mk k k k t1).encode) →
      (store.data (questionLimitKey questionId)).map Prod.fst =
        some ((RateLimitInfo.mk k k k t1).encode) →
      k + ts.length ≤ RESPONSE_LIMITS.PER_IP.PER_MINUTE →
      (∀ t ∈ ts, t - t1 ≤ RATE_LIMIT_WINDOW) →
      (runResp store questionId clientIp ts).1 =
        List.replicate ts.length { allowed := true, error := none } ∧
      (runResp store questionId clientIp ts).2.failing = false ∧
      ((runResp store questionId clientIp ts).2.data (ipLimitKey clientIp)).map
          Prod.fst =
        some ((RateLimitInfo.mk (k + ts.length) (k + ts.length) (k + ts.length)
          t1).encode) ∧
      ((runResp store questionId clientIp ts).2.data (questionLimitKey questionId)).map
          Prod.fst =
        some ((RateLimitInfo.mk (k + ts.length) (k + ts.length) (k + ts.length)
          t1).encode)
  | [], store, k => by
    intro hf hdi hdq _ _
    exact ⟨rfl, hf, hdi, hdq⟩
  | t :: ts, store, k => by
    intro hf hdi hdq hlen htimes
    have hstep := resp_step_invariant store questionId clientIp t k t1 hf hdi hdq
      (htimes t (List.mem_cons_self t ts))
      (by simp only [List.length_cons] at hlen; exact lt_of_lt_of_le (by omega) hlen)
    have hrec := runResp_allows_all questionId clientIp t1 ts
      ((store.setData (ipLimitKey clientIp)
          (RateLimitInfo.mk (k + 1) (k + 1) (k + 1) t1) (24 * 60 * 60)).setData
        (questionLimitKey questionId)
        (RateLimitInfo.mk (k + 1) (k + 1) (k + 1) t1) (24 * 60 * 60))
      (k + 1)
      (by rw [setData_failing, setData_failing]; exact hf)
      (by rw [setData_get_other _ _ _ _ _
            (ipLimitKey_ne_questionLimitKey clientIp questionId), setData_get_same]
          rfl)
      (by rw [setData_get_same]; rfl)
      (by simp only [List.length_cons] at hlen; omega)
      (fun u hu => htimes u (List.mem_cons_of_mem t hu))
    simp only [runResp, hstep]
    have harith : k + (t :: ts).length = k + 1 + ts.length := by
      simp only [List.length_cons]
      omega
    refine ⟨?_, hrec.2.1, ?_, ?_⟩
    · simp [hrec.1, List.replicate_succ]
    · rw [harith]
      exact hrec.2.2.1
    · rw [harith]
      exact hrec.2.2.2

theorem resp_denied_when_full (store : CounterStore) (questionId clientIp : String)
    (now : Nat) (t1 : Nat) (hf : store.failing = false)
    (hdi : (store.data (ipLimitKey clientIp)).map Prod.fst =
      some ((RateLimitInfo.mk 5 5 5 t1).encode))
    (hdq : (store.data (questionLimitKey questionId)).map Prod.fst =
      some ((RateLimitInfo.mk 5 5 5 t1).encode))
    (hwin : now - t1 ≤ RATE_LIMIT_WINDOW) :
    checkResponseRateLimit store questionId clientIp now =
      ({ allowed := false,
         error := some "Too many responses, please wait a minute" }, store) := by
  rw [resp_step store questionId clientIp now hf]
  have hei : effectiveState RATE_LIMIT_WINDOW store (ipLimitKey clientIp) now =
      RateLimitInfo.mk 5 5 5 t1 := by
    rw [effectiveState_eq _ _ _ _ _ hdi]
    exact resets_id_of_in_minute _ _ _ hwin
  have heq : effectiveState RATE_LIMIT_WINDOW store (questionLimitKey questionId) now =
      RateLimitInfo.mk 5 5 5 t1 := by
    rw [effectiveState_eq _ _ _ _ _ hdq]
    exact resets_id_of_in_minute _ _ _ hwin
  simp only [ge_iff_le, hei, heq, RESPONSE_LIMITS]
  rw [if_neg (show ¬ (50 : Nat) ≤ 5 by omega),
    if_neg (show ¬ (20 : Nat) ≤ 5 by omega),
    if_pos (show (5 : Nat) ≤ 5 from Nat.le_refl 5)]

theorem runResp_denied_all (questionId clientIp : String) (t1 : Nat) :
    ∀ (us : List Nat) (store : CounterStore),
      store.failing = false →
      (store.data (ipLimitKey clientIp)).map Prod.fst =
        some ((RateLimitInfo.mk 5 5 5 t1).encode) →
      (store.data (questionLimitKey questionId)).map Prod.fst =
        some ((RateLimitInfo.mk 5 5 5 t1).encode) →
      (∀ u ∈ us, u - t1 ≤ RATE_LIMIT_WINDOW) →
      runResp store questionId clientIp us =
        (List.replicate us.length
          { allowed := false,
            error := some "Too many responses, please wait a minute" }, store)
  | [], store => by
    intro _ _ _ _
    rfl
  | u :: us, store => by
    intro hf hdi hdq htimes
    have hstep := resp_denied_when_full store questionId clientIp u t1 hf hdi hdq
      (htimes u (List.mem_cons_self u us))
    have hrec := runResp_denied_all questionId clientIp t1 us store hf hdi hdq
      (fun v hv => htimes v (List.mem_cons_of_mem u hv))
    simp only [runResp, hstep, hrec, List.length_cons, List.replicate_succ]

theorem resp_allowed_after_window (store : CounterStore)
    (questionId clientIp : String) (now : Nat) (t1 : Nat) (hf : store.failing = false)
    (hdi : (store.data (ipLimitKey clientIp)).map Prod.fst =
      some ((RateLimitInfo.mk 5 5 5 t1).encode))
    (hdq : (store.data (questionLimitKey questionId)).map Prod.fst =
      some ((RateLimitInfo.mk 5 5 5 t1).encode))
    (hlate : RATE_LIMIT_WINDOW < now - t1) :
    (checkResponseRateLimit store questionId clientIp now).1.allowed = true := by
  rw [resp_step store questionId clientIp now hf]
  have hbi := effectiveState_eq RATE_LIMIT_WINDOW store (ipLimitKey clientIp) now _ hdi
  have hbq := effectiveState_eq RATE_LIMIT_WINDOW store (questionLimitKey questionId)
    now _ hdq
  have hdi1 : (effectiveState RATE_LIMIT_WINDOW store (ipLimitKey clientIp)
      now).dailyCount ≤ 5 := by
    rw [hbi]
    exact dailyCount_le_resets _ _ _
  have hhi1 : (effectiveState RATE_LIMIT_WINDOW store (ipLimitKey clientIp)
      now).hourlyCount ≤ 5 := by
    rw [hbi]
    exact hourlyCount_le_resets _ _ _
  have hwi1 : (effectiveState RATE_LIMIT_WINDOW store (ipLimitKey clientIp)
      now).windowCount = 0 := by
    rw [hbi]
    exact windowCount_reset_late _ _ _ hlate
  have hdq1 : (effectiveState RATE_LIMIT_WINDOW store (questionLimitKey questionId)
      now).dailyCount ≤ 5 := by
    rw [hbq]
    exact dailyCount_le_resets _ _ _
  have hhq1 : (effectiveState RATE_LIMIT_WINDOW store (questionLimitKey questionId)
      now).hourlyCount ≤ 5 := by
    rw [hbq]
    exact hourlyCount_le_resets _ _ _
  have hwq1 : (effectiveState RATE_LIMIT_WINDOW store (questionLimitKey questionId)
      now).windowCount = 0 := by
    rw [hbq]
    exact windowCount_reset_late _ _ _ hlate
  simp only [ge_iff_le, RESPONSE_LIMITS]
  split_ifs <;> first | rfl | (exfalso; omega)

/-- C4: from a fresh key, admitting exactly the per-minute maximum of
checks inside one window exhausts it: every further check within the
window is denied with the store (and its `lastReset`) unchanged, and the
first check strictly more than the window length after `lastReset` is
admitted again — for `rateLimitMiddleware` (any configured window below
24h, as both call sites use 60s) and for `checkResponseRateLimit` (whose
binding per-minute maximum is the per-IP one). -/
theorem window_exhaustion_and_rollover :
    (∀ (config : MWConfig) (store : CounterStore) (clientIp : String) (t1 : Nat)
        (rest : List Nat),
      store.failing = false →
      store.data (mwKey clientIp) = none →
      mwWindowMs config < 86400000 →
      (t1 :: rest).length = mwMax config →
      (∀ t ∈ t1 :: rest, t - t1 ≤ mwWindowMs config) →
      (runMW store clientIp config (t1 :: rest)).1 =
        List.replicate (mwMax config) MWOutcome.next ∧
      (∀ us : List Nat, (∀ u ∈ us, u - t1 ≤ mwWindowMs config) →
        runMW (runMW store clientIp config (t1 :: rest)).2 clientIp config us =
          (List.replicate us.length
            (MWOutcome.tooManyRequests (mwMessage config) (mwMax config)
              (t1 + mwWindowMs config)),
           (runMW store clientIp config (t1 :: rest)).2)) ∧
      (∀ t2 : Nat, mwWindowMs config < t2 - t1 →
        (rateLimitMiddleware (runMW store clientIp config (t1 :: rest)).2
            clientIp t2 config).1 = MWOutcome.next)) ∧
    (∀ (store : CounterStore) (questionId clientIp : String) (t1 : Nat)
        (rest : List Nat),
      store.failing = false →
      store.data (ipLimitKey clientIp) = none →
      store.data (questionLimitKey questionId) = none →
      (t1 :: rest).length = RESPONSE_LIMITS.PER_IP.PER_MINUTE →
      (∀ t ∈ t1 :: rest, t - t1 ≤ RATE_LIMIT_WINDOW) →
      (runResp store questionId clientIp (t1 :: rest)).1 =
        List.replicate RESPONSE_LIMITS.PER_IP.PER_MINUTE
          { allowed := true, error := none } ∧
      (∀ us : List Nat, (∀ u ∈ us, u - t1 ≤ RATE_LIMIT_WINDOW) →
        runResp (runResp store questionId clientIp (t1 :: rest)).2
            questionId clientIp us =
          (List.replicate us.length
            { allowed := false,
              error := some "Too many responses, please wait a minute" },
           (runResp store questionId clientIp (t1 :: rest)).2)) ∧
      (∀ t2 : Nat, RATE_LIMIT_WINDOW < t2 - t1 →
        (checkResponseRateLimit (runResp store questionId clientIp (t1 :: rest)).2
            questionId clientIp t2).1.allowed = true)) := by
  constructor
  · intro config store clientIp t1 rest hf hnone hw24 hlen htimes
    have hm : 0 < mwMax config := by
      rw [← hlen]
      simp
    have hfirst := mw_first_check store clientIp t1 config hf hnone hm
    have hrest := runMW_allows_all clientIp config t1 hw24 rest
      (store.setData (mwKey clientIp) (RateLimitInfo.mk 0 0 1 t1) (24 * 60 * 60)) 1
      (by rw [setData_failing]; exact hf)
      (by rw [setData_get_same]; rfl)
      (by simp only [List.length_cons] at hlen; omega)
      (fun u hu => htimes u (List.mem_cons_of_mem t1 hu))
    have hrun1 : (runMW store clientIp config (t1 :: rest)).1 =
        MWOutcome.next ::
          (runMW (store.setData (mwKey clientIp) (RateLimitInfo.mk 0 0 1 t1)
            (24 * 60 * 60)) clientIp config rest).1 := by
      simp only [runMW, hfirst]
    have hrun2 : (runMW store clientIp config (t1 :: rest)).2 =
        (runMW (store.setData (mwKey clientIp) (RateLimitInfo.mk 0 0 1 t1)
          (24 * 60 * 60)) clientIp config rest).2 := by
      simp only [runMW, hfirst]
    have hcount : 1 + rest.length = mwMax config := by
      simp only [List.length_cons] at hlen
      omega
    have hdataS : ((runMW store clientIp config (t1 :: rest)).2.data
        (mwKey clientIp)).map Prod.fst =
        some ((RateLimitInfo.mk 0 0 (mwMax config) t1).encode) := by
      rw [hrun2, ← hcount]
      exact hrest.2.2
    have hfS : (runMW store clientIp config (t1 :: rest)).2.failing = false := by
      rw [hrun2]
      exact hrest.2.1
    refine ⟨?_, ?_, ?_⟩
    · rw [hrun1, hrest.1, ← hlen]
      simp [List.replicate_succ]
    · intro us hus
      exact runMW_denied_all clientIp config t1 hw24 us _ hfS hdataS hus
    · intro t2 ht2
      exact mw_allowed_after_window _ clientIp t2 config t1 hfS hdataS ht2 hm
  · intro store questionId clientIp t1 rest hf hni hnq hlen htimes
    have hfirst := resp_first_check store questionId clientIp t1 hf hni hnq
    have hrest := runResp_allows_all questionId clientIp t1 rest
      ((store.setData (ipLimitKey clientIp) (RateLimitInfo.mk 1 1 1 t1)
          (24 * 60 * 60)).setData (questionLimitKey questionId)
        (RateLimitInfo.mk 1 1 1 t1) (24 * 60 * 60)) 1
      (by rw [setData_failing, setData_failing]; exact hf)
      (by rw [setData_get_other _ _ _ _ _
            (ipLimitKey_ne_questionLimitKey clientIp questionId), setData_get_same]
          rfl)
      (by rw [setData_get_same]; rfl)
      (by simp only [List.length_cons] at hlen; omega)
      (fun u hu => htimes u (List.mem_cons_of_mem t1 hu))
    have hrun1 : (runResp store questionId clientIp (t1 :: rest)).1 =
        { allowed := true, error := none } ::
          (runResp ((store.setData (ipLimitKey clientIp) (RateLimitInfo.mk 1 1 1 t1)
              (24 * 60 * 60)).setData (questionLimitKey questionId)
            (RateLimitInfo.mk 1 1 1 t1) (24 * 60 * 60)) questionId clientIp rest).1 := by
      simp only [runResp, hfirst]
    have hrun2 : (runResp store questionId clientIp (t1 :: rest)).2 =
        (runResp ((store.setData (ipLimitKey clientIp) (RateLimitInfo.mk 1 1 1 t1)
            (24 * 60 * 60)).setData (questionLimitKey questionId)
          (RateLimitInfo.mk 1 1 1 t1) (24 * 60 * 60)) questionId clientIp rest).2 := by
      simp only [runResp, hfirst]
    have hcount : 1 + rest.length = 5 := by
      have h5 : RESPONSE_LIMITS.PER_IP.PER_MINUTE = 5 := rfl
      rw [h5] at hlen
      simp only [List.length_cons] at hlen
      omega
    have hdi5 : ((runResp store questionId clientIp (t1 :: rest)).2.data
        (ipLimitKey clientIp)).map Prod.fst =
        some ((RateLimitInfo.mk 5 5 5 t1).encode) := by
      rw [hrun2, ← hcount]
      exact hrest.2.2.1
    have hdq5 : ((runResp store questionId clientIp (t1 :: rest)).2.data
        (questionLimitKey questionId)).map Prod.fst =
        some ((RateLimitInfo.mk 5 5 5 t1).encode) := by
      rw [hrun2, ← hcount]
      exact hrest.2.2.2
    have hfS : (runResp store questionId clientIp (t1 :: rest)).2.failing = false := by
      rw [hrun2]
      exact hrest.2.1
    refine ⟨?_, ?_, ?_⟩
    · rw [hrun1, hrest.1, ← hlen]
      simp [List.replicate_succ]
    · intro us hus
      exact runResp_denied_all questionId clientIp t1 us _ hfS hdi5 hdq5 hus
    · intro t2 ht2
      exact resp_allowed_after_window _ questionId clientIp t2 t1 hfS hdi5 hdq5 ht2

/-- Witness for C4: with the default config (max 3, window 60000 ms), three
admits at 0,1,2 exhaust the window, a check at 30000 is denied with the
store unchanged, and a check at 60001 is admitted; likewise for the
response limiter with its per-IP per-minute maximum of 5. -/
theorem window_exhaustion_and_rollover_witness :
    (runMW CounterStore.empty "1.2.3.4" {} [0, 1, 2]).1 =
      List.replicate 3 MWOutcome.next ∧
    runMW (runMW CounterStore.empty "1.2.3.4" {} [0, 1, 2]).2 "1.2.3.4" {} [30000] =
      (List.replicate 1 (MWOutcome.tooManyRequests
        "Rate limit exceeded for question creation" 3 60000),
       (runMW CounterStore.empty "1.2.3.4" {} [0, 1, 2]).2) ∧
    (rateLimitMiddleware (runMW CounterStore.empty "1.2.3.4" {} [0, 1, 2]).2
        "1.2.3.4" 60001 {}).1 = MWOutcome.next ∧
    (runResp CounterStore.empty "q1" "1.2.3.4" [0, 1, 2, 3, 4]).1 =
      List.replicate 5 ({ allowed := true, error := none } : ResponseCheckResult) ∧
    runResp (runResp CounterStore.empty "q1" "1.2.3.4" [0, 1, 2, 3, 4]).2
        "q1" "1.2.3.4" [30000] =
      (List.replicate 1
        ({ allowed := false,
           error := some "Too many responses, please wait a minute" } :
          ResponseCheckResult),
       (runResp CounterStore.empty "q1" "1.2.3.4" [0, 1, 2, 3, 4]).2) ∧
    (checkResponseRateLimit (runResp CounterStore.empty "q1" "1.2.3.4" [0, 1, 2, 3, 4]).2
        "q1" "1.2.3.4" 60001).1.allowed = true := by
  have hA := window_exhaustion_and_rollover.1 {} CounterStore.empty "1.2.3.4" 0 [1, 2]
    rfl rfl (by decide) (by decide) (by decide)
  have hB := window_exhaustion_and_rollover.2 CounterStore.empty "q1" "1.2.3.4" 0
    [1, 2, 3, 4] rfl rfl rfl (by decide) (by decide)
  exact ⟨hA.1, hA.2.1 [30000] (by decide), hA.2.2 60001 (by decide),
    hB.1, hB.2.1 [30000] (by decide), hB.2.2 60001 (by decide)⟩

theorem urlAt_inside_https (tail : List Char) (i : Nat) (h1 : 1 ≤ i) (h8 : i < 8) :
    urlAt ("https://".toList ++ tail) i = false := by
  have hlit : "https://".toList = ['h', 't', 't', 'p', 's', ':', '/', '/'] := by decide
  rw [hlit]
  interval_cases i <;> simp [urlAt, List.isPrefixOf]

theorem urlAt_inside_http (tail : List Char) (i : Nat) (h1 : 1 ≤ i) (h7 : i < 7) :
    urlAt ("http://".toList ++ tail) i = false := by
  have hlit : "http://".toList = ['h', 't', 't', 'p', ':', '/', '/'] := by decide
  rw [hlit]
  interval_cases i <;> simp [urlAt, List.isPrefixOf]

theorem countP_range_shift (s n : Nat) (f : Nat → Bool) :
    (List.range (s + n)).countP f =
      (List.range s).countP f + (List.range n).countP (fun j => f (s + j)) := by
  rw [List.range_add, List.countP_append, List.countP_map]
  try rfl

theorem urlAt_shift (l : List Char) (s j : Nat) : urlAt l (s + j) = urlAt (l.drop s) j := by
  unfold urlAt
  rw [List.drop_drop]

theorem countUrlGo_eq_countP : ∀ (fuel : Nat) (l : List Char), l.length ≤ fuel →
    countUrlGo fuel l = (List.range l.length).countP (fun i => urlAt l i)
  | 0, l, h => by
    have hnil : l = [] := List.eq_nil_of_length_eq_zero (Nat.le_zero.mp h)
    subst hnil
    simp [countUrlGo]
  | _ + 1, [], _ => by simp [countUrlGo]
  | fuel + 1, c :: rest, h => by
    have hfuel : rest.length ≤ fuel := by
      simp only [List.length_cons] at h
      omega
    by_cases hpre : List.isPrefixOf "https://".toList (c :: rest) = true
    · have ih := countUrlGo_eq_countP fuel (List.drop 7 rest)
        (le_trans (by simp only [List.length_drop]; omega) hfuel)
      obtain ⟨tail, htail⟩ := List.isPrefixOf_iff_prefix.mp hpre
      have hlen8 : ("https://".toList).length = 8 := by decide
      have hdrop : List.drop 7 rest = tail := by
        have h0 : List.drop 8 (c :: rest) = List.drop 7 rest := rfl
        rw [← h0, ← htail, ← hlen8, List.drop_left]
      have hlen : (c :: rest).length = 8 + tail.length := by
        rw [← htail, List.length_append, hlen8]
      have h0 : urlAt (c :: rest) 0 = true := by
        unfold urlAt
        simp only [List.drop_zero, hpre, Bool.true_or]
      have hinside : ∀ i, 1 ≤ i → i < 8 → urlAt (c :: rest) i = false := by
        intro i hi1 hi8
        rw [← htail]
        exact urlAt_inside_https tail i hi1 hi8
      have hshift : ∀ j, urlAt (c :: rest) (8 + j) = urlAt tail j := by
        intro j
        rw [urlAt_shift, ← htail, ← hlen8, List.drop_left]
      simp only [countUrlGo]
      rw [if_pos hpre, ih, hdrop, hlen, countP_range_shift]
      have hr8 : (List.range 8).countP (fun i => urlAt (c :: rest) i) = 1 := by
        have hr : List.range 8 = [0, 1, 2, 3, 4, 5, 6, 7] := by decide
        rw [hr]
        simp [List.countP_cons, h0, hinside 1 (by omega) (by omega),
          hinside 2 (by omega) (by omega), hinside 3 (by omega) (by omega),
          hinside 4 (by omega) (by omega), hinside 5 (by omega) (by omega),
          hinside 6 (by omega) (by omega), hinside 7 (by omega) (by omega)]
      have hrest : (List.range tail.length).countP (fun j => urlAt (c :: rest) (8 + j)) =
          (List.range tail.length).countP (fun j => urlAt tail j) := by
        apply List.countP_congr
        intro j _
        rw [hshift j]
      rw [hr8, hrest]
    · by_cases hpre2 : List.isPrefixOf "http://".toList (c :: rest) = true
      · have ih := countUrlGo_eq_countP fuel (List.drop 6 rest)
          (le_trans (by simp only [List.length_drop]; omega) hfuel)
        obtain ⟨tail, htail⟩ := List.isPrefixOf_iff_prefix.mp hpre2
        have hlen7 : ("http://".toList).length = 7 := by decide
        have hdrop : List.drop 6 rest = tail := by
          have h0 : List.drop 7 (c :: rest) = List.drop 6 rest := rfl
          rw [← h0, ← htail, ← hlen7, List.drop_left]
        have hlen : (c :: rest).length = 7 + tail.length := by
          rw [← htail, List.length_append, hlen7]
        have h0 : urlAt (c :: rest) 0 = true := by
          unfold urlAt
          simp only [List.drop_zero, hpre2, Bool.or_true]
        have hinside : ∀ i, 1 ≤ i → i < 7 → urlAt (c :: rest) i = false := by
          intro i hi1 hi7
          rw [← htail]
          exact urlAt_inside_http tail i hi1 hi7
        have hshift : ∀ j, urlAt (c :: rest) (7 + j) = urlAt tail j := by
          intro j
          rw [urlAt_shift, ← htail, ← hlen7, List.drop_left]
        simp only [countUrlGo]
        rw [if_neg hpre, if_pos hpre2, ih, hdrop, hlen, countP_range_shift]
        have hr7 : (List.range 7).countP (fun i => urlAt (c :: rest) i) = 1 := by
          have hr : List.range 7 = [0, 1, 2, 3, 4, 5, 6] := by decide
          rw [hr]
          simp [List.countP_cons, h0, hinside 1 (by omega) (by omega),
            hinside 2 (by omega) (by omega), hinside 3 (by omega) (by omega),
            hinside 4 (by omega) (by omega), hinside 5 (by omega) (by omega),
            hinside 6 (by omega) (by omega)]
        have hrest : (List.range tail.length).countP
            (fun j => urlAt (c :: rest) (7 + j)) =
            (List.range tail.length).countP (fun j => urlAt tail j) := by
          apply List.countP_congr
          intro j _
          rw [hshift j]
        rw [hr7, hrest]
      · have ih := countUrlGo_eq_countP fuel rest hfuel
        have h0 : urlAt (c :: rest) 0 = false := by
          unfold urlAt
          simp only [List.drop_zero]
          rw [Bool.or_eq_false_iff]
          exact ⟨Bool.eq_false_iff.mpr hpre, Bool.eq_false_iff.mpr hpre2⟩
        have hshift : ∀ j, urlAt (c :: rest) (1 + j) = urlAt rest j := by
          intro j
          rw [urlAt_shift]
          rfl
        have hlen : (c :: rest).length = 1 + rest.length := by
          simp [Nat.add_comm]
        simp only [countUrlGo]
        rw [if_neg hpre, if_neg hpre2, ih, hlen, countP_range_shift]
        have hr1 : (List.range 1).countP (fun i => urlAt (c :: rest) i) = 0 := by
          have hr : List.range 1 = [0] := by decide
          rw [hr]
          simp [List.countP_cons, h0]
        have hrest : (List.range rest.length).countP
            (fun j => urlAt (c :: rest) (1 + j)) =
            (List.range rest.length).countP (fun j => urlAt rest j) := by
          apply List.countP_congr
          intro j _
          rw [hshift j]
        rw [hr1, hrest]
        omega

theorem countUrl_eq_countP (l : List Char) :
    countUrlMatches l = (List.range l.length).countP (fun i => urlAt l i) :=
  countUrlGo_eq_countP l.length l (Nat.le_refl _)

theorem char_valid_nat (c : Char) :
    c.toNat < 55296 ∨ (57343 < c.toNat ∧ c.toNat < 1114112) := c.valid

theorem char_toNat_inj (c d : Char) (h : c.toNat = d.toNat) : c = d :=
  Char.eq_of_val_eq (UInt32.ext h)

theorem utf16Units_bmp (c : Char) (h : c.toNat < 65536) : utf16Units c = [c.toNat] := by
  unfold utf16Units
  rw [if_pos h]

theorem utf16Units_astral (c : Char) (h : ¬ c.toNat < 65536) :
    utf16Units c = [55296 + (c.toNat - 65536) / 1024, 56320 + (c.toNat - 65536) % 1024] ∧
    55296 + (c.toNat - 65536) / 1024 < 56320 ∧
    56320 ≤ 56320 + (c.toNat - 65536) % 1024 ∧
    56320 + (c.toNat - 65536) % 1024 ≤ 57343 := by
  have hv := char_valid_nat c
  refine ⟨by unfold utf16Units; rw [if_neg h], ?_, ?_, ?_⟩
  · have : (c.toNat - 65536) / 1024 < 1024 := by
      apply Nat.div_lt_of_lt_mul
      omega
    omega
  · omega
  · have : (c.toNat - 65536) % 1024 < 1024 := Nat.mod_lt _ (by omega)
    omega

theorem head_unit_not_low_surrogate (l : List Char) (u : Nat) (hu1 : 56320 ≤ u)
    (hu2 : u ≤ 57343) : (utf16 l).takeWhile (fun v => v = u) = [] := by
  match l with
  | [] => rfl
  | c :: rest =>
    by_cases hc : c.toNat < 65536
    · have hv := char_valid_nat c
      rw [utf16, utf16Units_bmp c hc, List.cons_append, List.takeWhile_cons]
      rw [if_neg (by simp; omega)]
    · obtain ⟨he, hh, -, -⟩ := utf16Units_astral c hc
      rw [utf16, he, List.cons_append, List.takeWhile_cons]
      rw [if_neg (by simp; omega)]

theorem takeWhile_utf16_bmp (c : Char) (hc : c.toNat < 65536) :
    ∀ l : List Char,
      ((utf16 l).takeWhile (fun v => v = c.toNat)).length =
        (l.takeWhile (fun d => d = c)).length
  | [] => rfl
  | d :: tl => by
    by_cases hdc : d = c
    · subst hdc
      rw [utf16, utf16Units_bmp d hc, List.cons_append, List.nil_append,
        List.takeWhile_cons, List.takeWhile_cons]
      rw [if_pos (by simp), if_pos (by simp)]
      simp only [List.length_cons]
      rw [takeWhile_utf16_bmp d hc tl]
    · have hne : d.toNat ≠ c.toNat := fun h => hdc (char_toNat_inj d c h)
      by_cases hd : d.toNat < 65536
      · rw [utf16, utf16Units_bmp d hd, List.cons_append, List.nil_append,
          List.takeWhile_cons, List.takeWhile_cons]
        rw [if_neg (by simp; omega), if_neg (by simp [hdc])]
        rfl
      · have hvc := char_valid_nat c
        obtain ⟨he, hh1, -, -⟩ := utf16Units_astral d hd
        rw [utf16, he, List.cons_append, List.takeWhile_cons, List.takeWhile_cons]
        rw [if_neg (by simp; omega), if_neg (by simp [hdc])]
        rfl

theorem hasRepeatedRun_utf16 : ∀ l : List Char, hasRepeatedRun (utf16 l) = charRepeatedRun l
  | [] => rfl
  | c :: rest => by
    by_cases hc : c.toNat < 65536
    · rw [utf16, utf16Units_bmp c hc, List.cons_append, List.nil_append]
      simp only [hasRepeatedRun, charRepeatedRun]
      rw [hasRepeatedRun_utf16 rest, takeWhile_utf16_bmp c hc rest]
      have hb : decide (c.toNat < 65536) = true := by simp [hc]
      simp only [isLineTerminator, hb, Bool.and_true]
    · obtain ⟨he, hh1, hl1, hl2⟩ := utf16Units_astral c hc
      rw [utf16, he]
      simp only [List.cons_append, List.nil_append]
      simp only [hasRepeatedRun, charRepeatedRun]
      rw [hasRepeatedRun_utf16 rest]
      rw [List.takeWhile_cons, if_neg (by simp; omega)]
      rw [head_unit_not_low_surrogate rest _ hl1 hl2]
      simp [hc]

theorem le_takeWhile_replicate (c : Char) (n : Nat) (l2 : List Char) :
    n ≤ ((List.replicate n c ++ l2).takeWhile (fun d => decide (d = c))).length := by
  induction n with
  | zero => simp
  | succ n ih =>
    rw [List.replicate_succ, List.cons_append, List.takeWhile_cons,
      if_pos (show decide (c = c) = true by simp)]
    simp only [List.length_cons]
    omega

theorem charRepeatedRun_iff (l : List Char) :
    charRepeatedRun l = true ↔
      ∃ l1 c l2, l = l1 ++ List.replicate 10 c ++ l2 ∧
        isLineTerminator c = false ∧ c.toNat < 65536 := by
  induction l with
  | nil =>
    constructor
    · intro h
      simp [charRepeatedRun] at h
    · rintro ⟨l1, c, l2, hdec, -⟩
      have hlen := congrArg List.length hdec
      simp at hlen
      omega
  | cons x rest ih =>
    simp only [charRepeatedRun, Bool.or_eq_true, Bool.and_eq_true, Bool.not_eq_true',
      decide_eq_true_eq]
    constructor
    · rintro (⟨⟨hlt, hbmp⟩, h9⟩ | hrec)
      · set tw := rest.takeWhile (fun d => decide (d = x)) with htw
        have hall : ∀ b ∈ tw, b = x := by
          intro b hb
          have := List.mem_takeWhile_imp hb
          simpa using this
        have hrepl : tw = List.replicate tw.length x := List.eq_replicate_of_mem hall
        have hsplit : rest = tw ++ rest.dropWhile (fun d => decide (d = x)) :=
          (List.takeWhile_append_dropWhile _ _).symm
        have hL : 10 + (tw.length - 9) = tw.length + 1 := by omega
        refine ⟨[], x, List.replicate (tw.length - 9) x ++
          rest.dropWhile (fun d => decide (d = x)), ?_, hlt, hbmp⟩
        rw [List.nil_append]
        conv_lhs => rw [hsplit, hrepl]
        rw [← List.append_assoc, ← List.replicate_add, hL, List.replicate_succ,
          List.cons_append]
      · obtain ⟨l1, c, l2, hdec, hlt, hbmp⟩ := ih.mp hrec
        exact ⟨x :: l1, c, l2, by rw [hdec]; rfl, hlt, hbmp⟩
    · rintro ⟨l1, c, l2, hdec, hlt, hbmp⟩
      match l1, hdec with
      | [], hdec =>
        left
        have hx : x = c := by
          have := congrArg (fun t => t.head?) hdec
          simpa [List.replicate_succ] using this
        subst hx
        have hrest : rest = List.replicate 9 x ++ l2 := by
          have := congrArg List.tail hdec
          simpa [List.replicate_succ] using this
        refine ⟨⟨hlt, hbmp⟩, ?_⟩
        rw [hrest]
        exact le_takeWhile_replicate x 9 l2
      | y :: l1, hdec =>
        right
        apply ih.mpr
        refine ⟨l1, c, l2, ?_, hlt, hbmp⟩
        have := congrArg List.tail hdec
        simpa using this

theorem hasRepeatedRun_iff (l : List Char) :
    hasRepeatedRun (utf16 l) = true ↔
      ∃ l1 c l2, l = l1 ++ List.replicate 10 c ++ l2 ∧
        isLineTerminator c = false ∧ c.toNat < 65536 := by
  rw [hasRepeatedRun_utf16 l]
  exact charRepeatedRun_iff l

theorem lt_foldr_max_iff (l : List Nat) (n : Nat) :
    n < l.foldr max 0 ↔ ∃ x ∈ l, n < x := by
  induction l with
  | nil => simp
  | cons a l ih =>
    simp only [List.foldr_cons, lt_max_iff, ih, List.mem_cons]
    constructor
    · rintro (h | ⟨x, hx, hn⟩)
      · exact ⟨a, Or.inl rfl, h⟩
      · exact ⟨x, Or.inr hx, hn⟩
    · rintro ⟨x, hx | hx, hn⟩
      · subst hx
        exact Or.inl hn
      · exact Or.inr ⟨x, hx, hn⟩

theorem maxWordRepetition_iff (ws : List (List Char)) (n : Nat) :
    n < maxWordRepetition ws ↔ ∃ w ∈ ws, n < ws.count w := by
  unfold maxWordRepetition
  rw [lt_foldr_max_iff]
  constructor
  · rintro ⟨x, hx, hn⟩
    rw [List.mem_map] at hx
    obtain ⟨w, hw, rfl⟩ := hx
    exact ⟨w, hw, hn⟩
  · rintro ⟨w, hw, hn⟩
    exact ⟨ws.count w, List.mem_map_of_mem _ hw, hn⟩

set_option maxRecDepth 40000 in
/-- C8 counterexample: ten consecutive newlines, and likewise ten
consecutive copies of the astral character U+1F600, are each a 10-repeat
of a single character, yet `checkForSpam` classifies neither text as spam:
the regex dot matches no line terminator, and over UTF-16 code units an
astral character's alternating surrogates never satisfy the
backreference. -/
theorem checkForSpam_misses_newline_run :
    ((∃ l1 c l2, (String.mk (List.replicate 10 (Char.ofNat 10))).toList =
        l1 ++ List.replicate 10 c ++ l2) ∧
      checkForSpam (String.mk (List.replicate 10 (Char.ofNat 10))) =
        { isSpam := false, reason := none }) ∧
    ((∃ l1 c l2, (String.mk (List.replicate 10 (Char.ofNat 128512))).toList =
        l1 ++ List.replicate 10 c ++ l2) ∧
      checkForSpam (String.mk (List.replicate 10 (Char.ofNat 128512))) =
        { isSpam := false, reason := none }) :=
  ⟨⟨⟨[], Char.ofNat 10, [], by decide⟩, by decide⟩,
   ⟨⟨[], Char.ofNat 128512, [], by decide⟩, by decide⟩⟩

/-- C8 amended: `checkForSpam` flags a text iff (a) some single
character that is not a line terminator and lies in the Basic
Multilingual Plane repeats at least 10 times consecutively (the regex
runs over UTF-16 code units, where an astral character's surrogates
alternate), or (b) more than 3 positions carry an `http://`/`https://`
prefix, or (c) after Unicode lower-casing and whitespace-splitting some
word occurs more than 5 times and there are more than 10 words; the rules
are checked in that order and the reason reported is that of the first
rule that matches. -/
theorem checkForSpam_rules (content : String) :
    ((checkForSpam content).isSpam = true ↔
      (ruleRepeatedChars content ∨ ruleUrlCount content ∨
        ruleWordRepetition content)) ∧
    (ruleRepeatedChars content →
      checkForSpam content =
        { isSpam := true, reason := some "Too many repeated characters" }) ∧
    (¬ ruleRepeatedChars content → ruleUrlCount content →
      checkForSpam content = { isSpam := true, reason := some "Too many URLs" }) ∧
    (¬ ruleRepeatedChars content → ¬ ruleUrlCount content →
      ruleWordRepetition content →
      checkForSpam content =
        { isSpam := true, reason := some "Excessive word repetition" }) ∧
    (¬ ruleRepeatedChars content → ¬ ruleUrlCount content →
      ¬ ruleWordRepetition content →
      checkForSpam content = { isSpam := false, reason := none }) := by
  have hA : hasRepeatedRun (utf16 content.toList) = true ↔ ruleRepeatedChars content :=
    hasRepeatedRun_iff content.toList
  have hB : (3 < countUrlMatches content.toList) ↔ ruleUrlCount content := by
    unfold ruleUrlCount
    rw [countUrl_eq_countP]
  have hC : (5 < maxWordRepetition (splitWs (jsToLower content.toList)) ∧
      10 < (splitWs (jsToLower content.toList)).length) ↔
      ruleWordRepetition content := by
    unfold ruleWordRepetition
    exact and_congr_left fun _ => maxWordRepetition_iff _ 5
  have hcfs : checkForSpam content =
      (if hasRepeatedRun (utf16 content.toList) then
        { isSpam := true, reason := some "Too many repeated characters" }
      else if 3 < countUrlMatches content.toList then
        { isSpam := true, reason := some "Too many URLs" }
      else if 5 < maxWordRepetition (splitWs (jsToLower content.toList)) ∧
          10 < (splitWs (jsToLower content.toList)).length then
        { isSpam := true, reason := some "Excessive word repetition" }
      else { isSpam := false, reason := none }) := rfl
  rw [hcfs]
  by_cases ha : hasRepeatedRun (utf16 content.toList)
  · have hra : ruleRepeatedChars content := hA.mp ha
    rw [if_pos ha]
    exact ⟨iff_of_true rfl (Or.inl hra), fun _ => rfl, fun hn _ => absurd hra hn,
      fun hn _ _ => absurd hra hn, fun hn _ _ => absurd hra hn⟩
  · have hra : ¬ ruleRepeatedChars content := fun h => ha (hA.mpr h)
    rw [if_neg ha]
    by_cases hb : 3 < countUrlMatches content.toList
    · have hrb : ruleUrlCount content := hB.mp hb
      rw [if_pos hb]
      exact ⟨iff_of_true rfl (Or.inr (Or.inl hrb)), fun h => absurd h hra,
        fun _ _ => rfl, fun _ hnb _ => absurd hrb hnb, fun _ hnb _ => absurd hrb hnb⟩
    · have hrb : ¬ ruleUrlCount content := fun h => hb (hB.mpr h)
      rw [if_neg hb]
      by_cases hc : 5 < maxWordRepetition (splitWs (jsToLower content.toList)) ∧
          10 < (splitWs (jsToLower content.toList)).length
      · have hrc : ruleWordRepetition content := hC.mp hc
        rw [if_pos hc]
        exact ⟨iff_of_true rfl (Or.inr (Or.inr hrc)), fun h => absurd h hra,
          fun _ h => absurd h hrb, fun _ _ _ => rfl, fun _ _ hnc => absurd hrc hnc⟩
      · have hrc : ¬ ruleWordRepetition content := fun h => hc (hC.mpr h)
        rw [if_neg hc]
        refine ⟨iff_of_false (by simp) ?_, fun h => absurd h hra,
          fun _ h => absurd h hrb, fun _ _ h => absurd h hrc, fun _ _ _ => rfl⟩
        exact fun h => h.elim hra fun h2 => h2.elim hrb hrc

/-- Witness for the amended C8: the spec's repeated-character example and a
four-URL example, each classified with the first matching rule's reason. -/
theorem checkForSpam_rules_witness :
    checkForSpam "aaaaaaaaaaaa short text" =
      { isSpam := true, reason := some "Too many repeated characters" } ∧
    checkForSpam "see http://a.com http://b.com http://c.com http://d.com" =
      { isSpam := true, reason := some "Too many URLs" } :=
  ⟨(checkForSpam_rules "aaaaaaaaaaaa short text").2.1
      ⟨[], 'a', "aa short text".toList, by decide, by decide, by decide⟩,
   (checkForSpam_rules "see http://a.com http://b.com http://c.com http://d.com").2.2.1
      (fun hr => absurd ((hasRepeatedRun_iff _).mpr hr) (by decide))
      (by unfold ruleUrlCount
          rw [← countUrl_eq_countP]
          decide)⟩
